import Mathlib

/-!
# Snake game engine (game.cpp, main.cpp): shallow embedding

The global variables of `game.cpp` are collected in one record `Globals`; every
function of the source that touches them becomes a function on that record.

* `uint8_t` values are natural numbers, reduced `% 256` wherever the source can
  wrap; `int8_t` values are integers, wrapped by `toI8`.
* The arrays `snake` and `fruit` are maps from index to `Position`.  The source
  never compares an index against the declared capacity `MAX_LEN`, so the
  capacity does not occur in the definitions: it only occurs in statements
  about bounds.  The maps alias nothing, whereas in the program a write at an
  index from `MAX_LEN` on lands in a neighbouring global.  The model therefore
  gives the program's state only for runs whose array accesses stay below
  `MAX_LEN` (`MoveInBounds`); about a run that leaves the array the statements
  say that the access happens, and which index it has.
* `GRID_SIZE` and `MAX_LEN` come from `game.h`; they are parameters here.
* `Buzzer_Post` is recorded as a log of the posted events.
* `rand()` is an input: `generateFruitTick` takes the list of the values that the
  successive calls return, and reports whether the call has returned or still
  waits for a value when the list ends.
* Every function is modelled as one uninterrupted run: the statements below are
  about a single task, not about interleavings of tasks.
-/

namespace SnakeGame

/-! ## Machine integers -/

/-- Conversion of an integer value to `uint8_t`. -/
def toU8 (z : Int) : Nat := (z % 256).toNat

/-- Conversion of an integer value to `int8_t` (wrap modulo 256 into -128..127). -/
def toI8 (z : Int) : Int := (z + 128) % 256 - 128

/-! ## Data model (`game.h`, `buzzer.h`) -/

/-- The four game directions. -/
inductive Direction where
  | UP
  | DOWN
  | LEFT
  | RIGHT
deriving DecidableEq, Repr

/-- A grid cell; both coordinates are `uint8_t` in the source. -/
@[ext]
structure Position where
  x : Nat
  y : Nat
deriving DecidableEq, Repr

/-- The record `SnakeGameState`, in the field order of its initialiser
`{ RIGHT, true, false, false }`. -/
structure SnakeGameState where
  currentDirection : Direction
  isRunning : Bool
  needsReset : Bool
  lose : Bool
deriving DecidableEq, Repr

/-- A tone request (`buzzer.h`). -/
structure BuzzerEvent where
  frequency : Nat
  duration : Nat
deriving DecidableEq, Repr

/-- The 8-way joystick reading used by `vInputTask`. -/
inductive JoystickDir where
  | N
  | NE
  | E
  | SE
  | S
  | SW
  | W
  | NW
  | Center
deriving DecidableEq, Repr

/-- All global variables of `game.cpp`, plus the log of `Buzzer_Post` calls. -/
structure Globals where
  gameState : SnakeGameState
  snake : Nat → Position
  snakeLength : Nat
  fruit : Nat → Position
  fruitSize : Nat
  score : Nat
  generatedX : Nat
  generatedY : Nat
  posted : List BuzzerEvent

/-- The values the globals have at program start (`game.cpp` lines 8-16; the
arrays are zero-initialised). -/
def initGlobals : Globals where
  gameState := { currentDirection := .RIGHT, isRunning := true, needsReset := false, lose := false }
  snake := fun _ => { x := 0, y := 0 }
  snakeLength := 4
  fruit := fun _ => { x := 0, y := 0 }
  fruitSize := 0
  score := 0
  generatedX := 0
  generatedY := 0
  posted := []

/-- An array whose first cells hold the listed positions and whose other cells
are zero. -/
def cells (l : List Position) : Nat → Position :=
  fun i => l.getD i { x := 0, y := 0 }

/-- The live fruit entries `fruit[0] .. fruit[fruitSize-1]`, in storage order. -/
def fruitSeq (s : Globals) : List Position :=
  (List.range s.fruitSize).map s.fruit

/-- The live snake segments `snake[0] .. snake[snakeLength-1]`. -/
def snakeSeq (s : Globals) : List Position :=
  (List.range s.snakeLength).map s.snake

/-- Both coordinates lie in `[0, GRID_SIZE-1]`. -/
def OnGrid (GRID_SIZE : Nat) (p : Position) : Prop :=
  p.x < GRID_SIZE ∧ p.y < GRID_SIZE

instance (GRID_SIZE : Nat) (p : Position) : Decidable (OnGrid GRID_SIZE p) := by
  unfold OnGrid; infer_instance

/-! ## game.cpp -/

/-- The call `Buzzer_Post(frequency, durationMS)`: the event is handed to the buzzer
queue; here it is appended to the log of posted events. -/
def Buzzer_Post (s : Globals) (frequency durationMS : Nat) : Globals :=
  { s with posted := s.posted ++ [{ frequency := frequency, duration := durationMS }] }

/-- The function `positionHasSnake(x, y)`: the loop over `i < snakeLength` returns `true` at
the first segment equal to `(x, y)`. -/
def positionHasSnake (s : Globals) (x y : Nat) : Bool :=
  (List.range s.snakeLength).any (fun i => (s.snake i).x == x && (s.snake i).y == y)

/-- From `eatFruit`, lines 79-81: `n` remaining iterations of
`fruit[i] = fruit[i + 1]`, starting at index `i`. -/
def shiftDown : Nat → Nat → (Nat → Position) → (Nat → Position)
  | 0, _, a => a
  | n + 1, i, a => shiftDown n (i + 1) (Function.update a i (a (i + 1)))

/-- The function `eatFruit(fruitIndex)`; the parameter is a `uint8_t`. -/
def eatFruit (s : Globals) (fruitIndex : Nat) : Globals :=
  let idx := fruitIndex % 256
  let s := { s with snakeLength := (s.snakeLength + 1) % 256 }
  let s := { s with score := (s.score + 1) % 256 }
  let s := Buzzer_Post s 1500 100
  let s := { s with fruitSize := (s.fruitSize + 255) % 256 }
  { s with fruit := shiftDown (s.fruitSize - idx) idx s.fruit }

/-- The function `isColliding()`: the loop over `1 <= i < snakeLength` returns `true` at the
first segment equal to `snake[0]`. -/
def isColliding (s : Globals) : Bool :=
  (List.range' 1 (s.snakeLength - 1)).any
    (fun i => (s.snake 0).x == (s.snake i).x && (s.snake 0).y == (s.snake i).y)

/-- From `moveSnake`, lines 99-101: the loop `for (i = n; i > 0; i--) snake[i] = snake[i - 1]`,
the argument being the loop variable. -/
def shiftBody : Nat → (Nat → Position) → (Nat → Position)
  | 0, a => a
  | i + 1, a => shiftBody i (Function.update a (i + 1) (a i))

/-- From `moveSnake`, lines 104-135: the `switch` that updates `snake[0]`. -/
def advanceHead (GRID_SIZE : Nat) (d : Direction) (h : Position) : Position :=
  match d with
  | .UP =>
    if h.y = 0 then { h with y := toU8 ((GRID_SIZE : Int) - 1) }
    else { h with y := (h.y - 1) % 256 }
  | .DOWN =>
    if (h.y : Int) = (GRID_SIZE : Int) - 1 then { h with y := 0 }
    else { h with y := (h.y + 1) % 256 }
  | .LEFT =>
    if h.x = 0 then { h with x := toU8 ((GRID_SIZE : Int) - 1) }
    else { h with x := (h.x - 1) % 256 }
  | .RIGHT =>
    if (h.x : Int) = (GRID_SIZE : Int) - 1 then { h with x := 0 }
    else { h with x := (h.x + 1) % 256 }

/-- From `moveSnake`, lines 145-149: the scan `for (i = 0; i < fruitSize; i++)`, which
calls `eatFruit(i)` on every match and goes on with `i + 1`.  The first argument
bounds the number of iterations; `i` is the loop variable. -/
def scanFruit : Nat → Nat → Globals → Globals
  | 0, _, s => s
  | fuel + 1, i, s =>
    if i < s.fruitSize then
      if (s.snake 0).x = (s.fruit i).x ∧ (s.snake 0).y = (s.fruit i).y then
        scanFruit fuel (i + 1) (eatFruit s i)
      else
        scanFruit fuel (i + 1) s
    else s

/-- The snake array after the shift and the head update of `moveSnake`
(lines 99-135), before the collision test. -/
def movedSnake (GRID_SIZE : Nat) (s : Globals) : Nat → Position :=
  let a := shiftBody s.snakeLength s.snake
  Function.update a 0 (advanceHead GRID_SIZE s.gameState.currentDirection (a 0))

/-- The function `moveSnake()`.  The fruit scan gets `fruitSize` as its iteration
bound, which it never exhausts (`scanFruit_fuel`). -/
def moveSnake (GRID_SIZE : Nat) (s : Globals) : Globals :=
  if s.gameState.isRunning && !s.gameState.lose then
    let s := { s with snake := movedSnake GRID_SIZE s }
    if isColliding s then
      let s := { s with gameState := { s.gameState with lose := true } }
      let s := Buzzer_Post s 3000 150
      let s := Buzzer_Post s 2500 150
      let s := Buzzer_Post s 3000 150
      Buzzer_Post s 2500 150
    else
      scanFruit s.fruitSize 0 s
  else s

/-- The function `ResetGame()`. -/
def ResetGame (GRID_SIZE : Nat) (s : Globals) : Globals :=
  let s := { s with fruitSize := 0 }
  let s := { s with snakeLength := 4 }
  let cx := (GRID_SIZE / 2) % 256
  let cy := (GRID_SIZE / 2) % 256
  let s := (List.range s.snakeLength).foldl
    (fun t i => { t with snake := Function.update t.snake i { x := toU8 ((cx : Int) - (i : Int)), y := cy } }) s
  let s := { s with gameState := { s.gameState with currentDirection := .RIGHT } }
  let s := { s with gameState := { s.gameState with isRunning := true } }
  let s := { s with gameState := { s.gameState with needsReset := false } }
  let s := { s with gameState := { s.gameState with lose := false } }
  { s with score := 0 }

/-! ## main.cpp: one iteration of `vInputTask` -/

/-- The look-ahead coordinate of `vInputTask` (lines 155-160 and its three
copies): `v` is the `int` value `coordinate ± 1`; it is stored in the `int8_t`
variable `testPos`, wrapped, and passed on as a `uint8_t` argument. -/
def testCoord (GRID_SIZE : Nat) (v : Int) : Nat :=
  let testPos := toI8 v
  let testPos :=
    if testPos < 0 then toI8 ((GRID_SIZE : Int) - 1)
    else if testPos > (GRID_SIZE : Int) - 1 then 0
    else testPos
  toU8 testPos

/-- From `vInputTask`, lines 139-147: the pause and reset buttons; `pausePressed` and
`resetPressed` are the results of `wasPressed()`. -/
def inputButtons (pausePressed resetPressed : Bool) (s : Globals) : Globals :=
  let s :=
    if pausePressed then
      Buzzer_Post { s with gameState := { s.gameState with isRunning := !s.gameState.isRunning } } 440 250
    else s
  if resetPressed then
    Buzzer_Post { s with gameState := { s.gameState with needsReset := true } } 850 250
  else s

/-- From `vInputTask`, lines 150-204: the `switch` on the joystick reading `joy`
(the result of `direction8()`). -/
def inputJoystick (GRID_SIZE : Nat) (joy : JoystickDir) (s : Globals) : Globals :=
  let up : Globals :=
    if !positionHasSnake s (s.snake 0).x (testCoord GRID_SIZE (((s.snake 0).y : Int) - 1)) then
      { s with gameState := { s.gameState with currentDirection := .UP } }
    else s
  let down : Globals :=
    if !positionHasSnake s (s.snake 0).x (testCoord GRID_SIZE (((s.snake 0).y : Int) + 1)) then
      { s with gameState := { s.gameState with currentDirection := .DOWN } }
    else s
  match joy with
  | .N => up
  | .NE => up
  | .NW => up
  | .S => down
  | .SE => down
  | .SW => down
  | .E =>
    if !positionHasSnake s (testCoord GRID_SIZE (((s.snake 0).x : Int) + 1)) (s.snake 0).y then
      { s with gameState := { s.gameState with currentDirection := .RIGHT } }
    else s
  | .W =>
    if !positionHasSnake s (testCoord GRID_SIZE (((s.snake 0).x : Int) - 1)) (s.snake 0).y then
      { s with gameState := { s.gameState with currentDirection := .LEFT } }
    else s
  | .Center => s

/-- One pass through the body of the `for (;;)` loop of `vInputTask`. -/
def vInputTaskStep (GRID_SIZE : Nat) (pausePressed resetPressed : Bool) (joy : JoystickDir)
    (s : Globals) : Globals :=
  inputJoystick GRID_SIZE joy (inputButtons pausePressed resetPressed s)

/-- The game direction a joystick reading stands for, if any
(`vInputTask`, the `case` labels of lines 152-200). -/
def joyTarget : JoystickDir → Option Direction
  | .N => some .UP
  | .NE => some .UP
  | .NW => some .UP
  | .S => some .DOWN
  | .SE => some .DOWN
  | .SW => some .DOWN
  | .E => some .RIGHT
  | .W => some .LEFT
  | .Center => none

/-- The cell that `vInputTask` passes to `positionHasSnake` before a turn to
direction `d` (lines 155-161, 168-174, 179-185, 190-196), `p` being `snake[0]`. -/
def lookAhead (GRID_SIZE : Nat) (d : Direction) (p : Position) : Position :=
  match d with
  | .UP => { x := p.x, y := testCoord GRID_SIZE ((p.y : Int) - 1) }
  | .DOWN => { x := p.x, y := testCoord GRID_SIZE ((p.y : Int) + 1) }
  | .LEFT => { x := testCoord GRID_SIZE ((p.x : Int) - 1), y := p.y }
  | .RIGHT => { x := testCoord GRID_SIZE ((p.x : Int) + 1), y := p.y }

/-! ## game.cpp: the fruit generator -/

/-- From `generateFruitTick`, line 45: the statement
`fruit[fruitSize++] = Position{generatedX, generatedY}`. -/
def appendFruit (s : Globals) : Globals :=
  { s with
    fruit := Function.update s.fruit s.fruitSize { x := s.generatedX, y := s.generatedY }
    fruitSize := (s.fruitSize + 1) % 256 }

/-- From `generateFruitTick`, lines 43-47: the body of the `while` loop. -/
def fruitBody (s : Globals) : Globals :=
  if !positionHasSnake s s.generatedX s.generatedY then appendFruit s else s

/-- From `generateFruitTick`, lines 42-48: the loop
`while (gameState.isRunning && rand() < RAND_MAX / 10)`.  The list holds the values
that the successive calls of `rand()` return.  The second component of the
result tells whether the loop has ended; when the list runs out while the loop
asks for one more value, the state reached so far is returned with `false`. -/
def fruitLoop (RAND_MAX : Nat) : List Nat → Globals → Globals × Bool
  | [], s => (s, !s.gameState.isRunning)
  | r :: rest, s =>
    if s.gameState.isRunning && decide (r < RAND_MAX / 10) then
      fruitLoop RAND_MAX rest (fruitBody s)
    else (s, true)

/-- From `generateFruitTick`, lines 40-41: `generatedX = rand() % GRID_SIZE` and
`generatedY = rand() % GRID_SIZE`, as far as the list of `rand()` values reaches. -/
def drawCandidate (GRID_SIZE : Nat) : List Nat → Globals → Globals
  | [], s => s
  | [rx], s => { s with generatedX := rx % GRID_SIZE % 256 }
  | rx :: ry :: _, s =>
    { s with generatedX := rx % GRID_SIZE % 256, generatedY := ry % GRID_SIZE % 256 }

/-- The function `generateFruitTick()`, run on the values `draws` returned by
`rand()`: the state reached, and whether the call has returned (see `fruitLoop`). -/
def generateFruitTick (GRID_SIZE RAND_MAX : Nat) (draws : List Nat) (s : Globals) :
    Globals × Bool :=
  match draws with
  | _ :: _ :: rest => fruitLoop RAND_MAX rest (drawCandidate GRID_SIZE draws s)
  | _ => (drawCandidate GRID_SIZE draws s, false)

/-! ## The critical sections under `fruitMutex` -/

/-- From `eatFruit`, lines 77-81: the critical section between `xSemaphoreTake`
and `xSemaphoreGive`, the decrement of `fruitSize` and the compaction from
`fruitIndex` on. -/
def removeFruit (s : Globals) (fruitIndex : Nat) : Globals :=
  let s := { s with fruitSize := (s.fruitSize + 255) % 256 }
  { s with fruit := shiftDown (s.fruitSize - fruitIndex) fruitIndex s.fruit }

/-- One run of a critical section guarded by `fruitMutex`: the append of
`generateFruitTick` (lines 44-46) by the fruit task, whose candidate is `(x, y)`,
or the removal of `eatFruit` (lines 76-82) by the snake task at `fruitIndex`. -/
inductive FruitOp where
  | append (x y : Nat)
  | remove (fruitIndex : Nat)
deriving DecidableEq, Repr

/-- The effect of one critical section on the globals. -/
def applyOp (s : Globals) : FruitOp → Globals
  | .append x y => appendFruit { s with generatedX := x, generatedY := y }
  | .remove fruitIndex => removeFruit s fruitIndex

/-- An interleaving of the two tasks under the mutex: the critical sections
exclude each other, so the interleaving is the list of the sections in the
order in which the mutex was taken. -/
def runOps (ops : List FruitOp) (s : Globals) : Globals :=
  ops.foldl applyOp s

/-- The number of appends in an interleaving. -/
def countAppends : List FruitOp → Nat
  | [] => 0
  | .append _ _ :: rest => countAppends rest + 1
  | .remove _ :: rest => countAppends rest

/-- The number of removals in an interleaving. -/
def countRemoves : List FruitOp → Nat
  | [] => 0
  | .append _ _ :: rest => countRemoves rest
  | .remove _ :: rest => countRemoves rest + 1

/-- The fruit sequence an interleaving should leave, in the words of the spec:
every append adds its cell once at the end, every removal erases the entry at
its index, and nothing else changes. -/
def expectedFruit : List FruitOp → List Position → List Position
  | [], l => l
  | .append x y :: rest, l => expectedFruit rest (l ++ [{ x := x, y := y }])
  | .remove fruitIndex :: rest, l => expectedFruit rest (l.eraseIdx fruitIndex)

/-- Every operation of the interleaving succeeds, `n` being the size of the fruit
set before it: an append finds room (`n < MAX_LEN`) and a counter that can count
it (`n < 255`), a removal hits a live entry (`fruitIndex < n`, as the scan loop of
`moveSnake` guarantees for the index it hands to `eatFruit`). -/
def OpsSucceed (MAX_LEN : Nat) : List FruitOp → Nat → Prop
  | [], _ => True
  | .append _ _ :: rest, n => (n < MAX_LEN ∧ n < 255) ∧ OpsSucceed MAX_LEN rest (n + 1)
  | .remove fruitIndex :: rest, n => fruitIndex < n ∧ OpsSucceed MAX_LEN rest (n - 1)

instance (MAX_LEN : Nat) (ops : List FruitOp) (n : Nat) :
    Decidable (OpsSucceed MAX_LEN ops n) := by
  induction ops generalizing n with
  | nil => unfold OpsSucceed; infer_instance
  | cons op rest ih => cases op <;> (unfold OpsSucceed; infer_instance)

/-! ## main.cpp: one iteration of `vSnakeTask` -/

/-- One pass through the body of the `for (;;)` loop of `vSnakeTask`
(lines 216-221): `ResetGame` when a reset was requested, then `moveSnake` when
the game runs. -/
def vSnakeTaskStep (GRID_SIZE : Nat) (s : Globals) : Globals :=
  let s := if s.gameState.needsReset then ResetGame GRID_SIZE s else s
  if s.gameState.isRunning then moveSnake GRID_SIZE s else s

/-! ## Predicates used in the statements -/

/-- The state `s` as a running, non-lost game whose `currentDirection` is `d`;
snake, fruit and everything else as in `s`. -/
def heading (d : Direction) (s : Globals) : Globals :=
  { s with gameState :=
      { currentDirection := d, isRunning := true,
        needsReset := s.gameState.needsReset, lose := false } }

/-- The indices that the shift loop of `moveSnake` (lines 99-101) writes, in the
order of the writes, for a snake of length `n`. -/
def shiftWrites : Nat → List Nat
  | 0 => []
  | i + 1 => (i + 1) :: shiftWrites i

/-- Every array access of one call of `moveSnake` stays inside the two arrays of
capacity `MAX_LEN`: the shift writes `snake[1 .. snakeLength]`, the collision test
reads `snake[0 .. snakeLength-1]`, and the fruit scan with its compaction touches
`fruit[0 .. fruitSize-1]` only. -/
def MoveInBounds (MAX_LEN : Nat) (s : Globals) : Prop :=
  s.snakeLength < MAX_LEN ∧ s.fruitSize ≤ MAX_LEN

instance (MAX_LEN : Nat) (s : Globals) : Decidable (MoveInBounds MAX_LEN s) := by
  unfold MoveInBounds; infer_instance

/-- Toroidal adjacency: equal on one axis and differing by 1 modulo `GRID_SIZE`
on the other. -/
def Adjacent (GRID_SIZE : Nat) (p q : Position) : Prop :=
  (p.x = q.x ∧ ((p.y + 1) % GRID_SIZE = q.y % GRID_SIZE ∨ (q.y + 1) % GRID_SIZE = p.y % GRID_SIZE)) ∨
  (p.y = q.y ∧ ((p.x + 1) % GRID_SIZE = q.x % GRID_SIZE ∨ (q.x + 1) % GRID_SIZE = p.x % GRID_SIZE))

instance (GRID_SIZE : Nat) (p q : Position) : Decidable (Adjacent GRID_SIZE p q) := by
  unfold Adjacent; infer_instance

/-- Every pair of consecutive live segments `snake[i]`, `snake[i+1]`
(`0 <= i < snakeLength-1`) is toroidally adjacent. -/
def SnakeAdjacent (GRID_SIZE : Nat) (s : Globals) : Prop :=
  ∀ i, i < s.snakeLength - 1 → Adjacent GRID_SIZE (s.snake i) (s.snake (i + 1))

instance (GRID_SIZE : Nat) (s : Globals) : Decidable (SnakeAdjacent GRID_SIZE s) := by
  unfold SnakeAdjacent; infer_instance

/-- Every live segment `snake[0] .. snake[snakeLength-1]` lies on the grid. -/
def SnakeOnGrid (GRID_SIZE : Nat) (s : Globals) : Prop :=
  ∀ i, i < s.snakeLength → OnGrid GRID_SIZE (s.snake i)

instance (GRID_SIZE : Nat) (s : Globals) : Decidable (SnakeOnGrid GRID_SIZE s) := by
  unfold SnakeOnGrid; infer_instance

/-- Every live fruit entry `fruit[0] .. fruit[fruitSize-1]` lies on the grid. -/
def FruitOnGrid (GRID_SIZE : Nat) (s : Globals) : Prop :=
  ∀ j, j < s.fruitSize → OnGrid GRID_SIZE (s.fruit j)

instance (GRID_SIZE : Nat) (s : Globals) : Decidable (FruitOnGrid GRID_SIZE s) := by
  unfold FruitOnGrid; infer_instance

/-! ## Concrete states -/

/-- A snake of length 4 heading DOWN from `(5,0)`, with three fruit entries of
which only entry 1 lies on the next head cell `(5,1)`. -/
def exEat : Globals :=
  { initGlobals with
    gameState := { initGlobals.gameState with currentDirection := .DOWN }
    snake := cells [⟨5, 0⟩, ⟨4, 0⟩, ⟨3, 0⟩, ⟨2, 0⟩]
    fruit := cells [⟨1, 1⟩, ⟨5, 1⟩, ⟨7, 7⟩]
    fruitSize := 3
    score := 255 }

/-- The snake of `exEat` with fruit entries 0 and 2 both on the next head cell
`(5,1)`. -/
def exTwoFruit : Globals :=
  { initGlobals with
    gameState := { initGlobals.gameState with currentDirection := .DOWN }
    snake := cells [⟨5, 0⟩, ⟨4, 0⟩, ⟨3, 0⟩, ⟨2, 0⟩]
    fruit := cells [⟨5, 1⟩, ⟨1, 1⟩, ⟨5, 1⟩]
    fruitSize := 3 }

/-- A snake of length 4 curled in a 2x2 block, heading RIGHT: the next head cell
`(6,5)` is the cell of the tail `snake[3]`. -/
def exTail : Globals :=
  { initGlobals with
    snake := cells [⟨5, 5⟩, ⟨5, 6⟩, ⟨6, 6⟩, ⟨6, 5⟩] }

/-- The snake of `exTail` with one more segment: the next head cell `(6,5)` is the
cell of `snake[3]`, which is no longer the tail. -/
def exHit : Globals :=
  { initGlobals with
    snake := cells [⟨5, 5⟩, ⟨5, 6⟩, ⟨6, 6⟩, ⟨6, 5⟩, ⟨7, 5⟩]
    snakeLength := 5
    fruit := cells [⟨6, 5⟩]
    fruitSize := 1 }

/-- A snake heading RIGHT along the bottom row `y = 127` of a grid of size 128. -/
def exBottom : Globals :=
  { initGlobals with
    snake := cells [⟨5, 127⟩, ⟨4, 127⟩, ⟨3, 127⟩, ⟨2, 127⟩] }

/-- A snake heading RIGHT along the row `y = 3` of a grid of size 16, its neck
at `(4,3)`. -/
def exRow : Globals :=
  { initGlobals with
    snake := cells [⟨5, 3⟩, ⟨4, 3⟩, ⟨3, 3⟩, ⟨2, 3⟩] }

/-- The state `exEat` after a defeat. -/
def exLost : Globals :=
  { exEat with gameState := { exEat.gameState with lose := true } }

/-- A snake of length 8 heading RIGHT with a fruit on the next head cell `(9,0)`;
meant for a capacity `MAX_LEN = 8`. -/
def exFull : Globals :=
  { initGlobals with
    snake := cells [⟨8, 0⟩, ⟨7, 0⟩, ⟨6, 0⟩, ⟨5, 0⟩, ⟨4, 0⟩, ⟨3, 0⟩, ⟨2, 0⟩, ⟨1, 0⟩]
    snakeLength := 8
    fruit := cells [⟨9, 0⟩]
    fruitSize := 1 }

/-- The snake of `exRow` with a full fruit array for a capacity `MAX_LEN = 8`:
eight live entries, all off the snake. -/
def exFruitFull : Globals :=
  { exRow with
    fruit := cells [⟨1, 1⟩, ⟨2, 1⟩, ⟨3, 1⟩, ⟨4, 1⟩, ⟨5, 1⟩, ⟨6, 1⟩, ⟨7, 1⟩, ⟨8, 1⟩]
    fruitSize := 8 }

/-- One call of `generateFruitTick` in which `rand()` returns `x`, `y`, 100, 5000
with `RAND_MAX = 32767`: the candidate is `(x mod GRID_SIZE, y mod GRID_SIZE)` and
the loop runs once. -/
def fruitTickAt (GRID_SIZE x y : Nat) (s : Globals) : Globals :=
  (generateFruitTick GRID_SIZE 32767 [x, y, 100, 5000] s).1

/-- A state reached from program start on a grid of size 16: `ResetGame`, then
three fruit ticks with the candidates `(9,8)`, `(1,1)` and `(9,8)` again.  The
snake lies at `(8,8), (7,8), (6,8), (5,8)` heading RIGHT, and fruit entries 0 and
2 both lie on the next head cell `(9,8)`. -/
def exFresh : Globals :=
  fruitTickAt 16 9 8 (fruitTickAt 16 1 1 (fruitTickAt 16 9 8 (ResetGame 16 initGlobals)))

/-- A state reached from program start on a grid of size 4.  First game:
`ResetGame`, a fruit at `(3,2)` is eaten, the snake turns UP, a fruit at `(3,1)` is
eaten, so the snake has length 6 and `snake[5]` holds `(255,2)`, the cell that
`ResetGame` writes for segment 3 on this grid.  Then the reset button is pressed,
`vSnakeTask` resets and moves once, the snake turns UP, and three fruit ticks
give the candidates `(3,1)`, `(0,0)` and `(3,1)` again.  Now the four live
segments `(3,2), (2,2), (1,2), (0,2)` and the three fruit entries lie on the
grid, `snake[5]` still holds `(255,2)`, and fruit entries 0 and 2 lie on the next
head cell `(3,1)`. -/
def exStale : Globals :=
  let s := ResetGame 4 initGlobals
  let s := fruitTickAt 4 3 2 s
  let s := vSnakeTaskStep 4 s
  let s := vInputTaskStep 4 false false .N s
  let s := fruitTickAt 4 3 1 s
  let s := vSnakeTaskStep 4 s
  let s := vInputTaskStep 4 false true .Center s
  let s := vSnakeTaskStep 4 s
  let s := vInputTaskStep 4 false false .N s
  let s := fruitTickAt 4 3 1 s
  let s := fruitTickAt 4 0 0 s
  fruitTickAt 4 3 1 s

/-- A snake of length 7 heading RIGHT, one below a capacity `MAX_LEN = 8`, with
fruit entries 0 and 2 both on the next head cell `(8,0)`. -/
def exNearFull : Globals :=
  { initGlobals with
    snake := cells [⟨7, 0⟩, ⟨6, 0⟩, ⟨5, 0⟩, ⟨4, 0⟩, ⟨3, 0⟩, ⟨2, 0⟩, ⟨1, 0⟩]
    snakeLength := 7
    fruit := cells [⟨8, 0⟩, ⟨1, 1⟩, ⟨8, 0⟩]
    fruitSize := 3 }

/-- The state `exEat` with 255 live fruit entries, for a capacity `MAX_LEN = 256`. -/
def exManyFruit : Globals :=
  { exEat with fruitSize := 255 }

/-- The snake of `exFull` (length 8, for a capacity `MAX_LEN = 8`) with no fruit
at all. -/
def exFullPlain : Globals :=
  { exFull with fruitSize := 0 }

/-- A snake of length 255 (for a capacity `MAX_LEN = 256`) heading DOWN: the head
at `(5,0)`, every other segment at `(0,0)`, and one fruit on the next head cell
`(5,1)`. -/
def exLong : Globals :=
  { exEat with
    snake := fun i => if i = 0 then { x := 5, y := 0 } else { x := 0, y := 0 }
    snakeLength := 255
    fruit := cells [⟨5, 1⟩]
    fruitSize := 1 }

/-! ## Arrays and loops -/

theorem toU8_pred (G : Nat) (h1 : 1 ≤ G) (h2 : G ≤ 256) : toU8 ((G : Int) - 1) = G - 1 := by
  unfold toU8
  omega

theorem shiftBody_apply (n : Nat) (a : Nat → Position) (j : Nat) :
    shiftBody n a j = if 1 ≤ j ∧ j ≤ n then a (j - 1) else a j := by
  induction n generalizing a with
  | zero =>
    have h : ¬ (1 ≤ j ∧ j ≤ 0) := by omega
    rw [if_neg h, shiftBody]
  | succ n ih =>
    rw [shiftBody, ih]
    by_cases hj : j = n + 1
    · subst hj
      have h1 : ¬ (1 ≤ n + 1 ∧ n + 1 ≤ n) := by omega
      simp [h1]
    · by_cases hc : 1 ≤ j ∧ j ≤ n
      · have h1 : 1 ≤ j ∧ j ≤ n + 1 := by omega
        have h2 : j - 1 ≠ n + 1 := by omega
        simp [hc, h1, Function.update_noteq h2]
      · have h1 : ¬ (1 ≤ j ∧ j ≤ n + 1) := by omega
        simp [hc, h1, Function.update_noteq hj]

theorem shiftDown_apply (n i : Nat) (a : Nat → Position) (j : Nat) :
    shiftDown n i a j = if i ≤ j ∧ j < i + n then a (j + 1) else a j := by
  induction n generalizing i a with
  | zero =>
    have h : ¬ (i ≤ j ∧ j < i + 0) := by omega
    rw [if_neg h, shiftDown]
  | succ n ih =>
    rw [shiftDown, ih]
    by_cases hj : j = i
    · subst hj
      have h1 : ¬ (j + 1 ≤ j ∧ j < j + 1 + n) := by omega
      have h2 : j ≤ j ∧ j < j + (n + 1) := by omega
      simp [h1, h2]
    · by_cases hc : i + 1 ≤ j ∧ j < i + 1 + n
      · have h1 : i ≤ j ∧ j < i + (n + 1) := by omega
        have h2 : j + 1 ≠ i := by omega
        simp [hc, h1, Function.update_noteq h2]
      · have h1 : ¬ (i ≤ j ∧ j < i + (n + 1)) := by omega
        simp [hc, h1, Function.update_noteq hj]

theorem isColliding_eq_true_iff (s : Globals) :
    isColliding s = true ↔ ∃ i, 1 ≤ i ∧ i < s.snakeLength ∧ s.snake 0 = s.snake i := by
  unfold isColliding
  rw [List.any_eq_true]
  constructor
  · rintro ⟨i, hi, h⟩
    rw [List.mem_range'_1] at hi
    simp only [Bool.and_eq_true, beq_iff_eq] at h
    exact ⟨i, hi.1, by omega, Position.ext h.1 h.2⟩
  · rintro ⟨i, h1, h2, h⟩
    refine ⟨i, ?_, ?_⟩
    · rw [List.mem_range'_1]
      omega
    · simp [h]

theorem isColliding_eq_false_iff (s : Globals) :
    isColliding s = false ↔ ∀ i, 1 ≤ i → i < s.snakeLength → s.snake 0 ≠ s.snake i := by
  rw [← Bool.not_eq_true, isColliding_eq_true_iff]
  constructor
  · intro h i h1 h2 he
    exact h ⟨i, h1, h2, he⟩
  · rintro h ⟨i, h1, h2, he⟩
    exact h i h1 h2 he

theorem positionHasSnake_eq_true_iff (s : Globals) (x y : Nat) :
    positionHasSnake s x y = true ↔ ∃ i, i < s.snakeLength ∧ s.snake i = { x := x, y := y } := by
  unfold positionHasSnake
  rw [List.any_eq_true]
  constructor
  · rintro ⟨i, hi, h⟩
    rw [List.mem_range] at hi
    simp only [Bool.and_eq_true, beq_iff_eq] at h
    exact ⟨i, hi, Position.ext h.1 h.2⟩
  · rintro ⟨i, hi, h⟩
    refine ⟨i, List.mem_range.mpr hi, ?_⟩
    simp [h]

theorem movedSnake_zero (GRID_SIZE : Nat) (s : Globals) :
    movedSnake GRID_SIZE s 0 = advanceHead GRID_SIZE s.gameState.currentDirection (s.snake 0) := by
  simp [movedSnake, shiftBody_apply]

theorem movedSnake_succ (GRID_SIZE : Nat) (s : Globals) (i : Nat) (h : i < s.snakeLength) :
    movedSnake GRID_SIZE s (i + 1) = s.snake i := by
  have h1 : 1 ≤ i + 1 ∧ i + 1 ≤ s.snakeLength := by omega
  simp [movedSnake, shiftBody_apply, h1]

/-! ## The fruit scan -/

theorem scanFruit_no_match (fuel i : Nat) (s : Globals)
    (h : ∀ j, i ≤ j → j < s.fruitSize → s.fruit j ≠ s.snake 0) :
    scanFruit fuel i s = s := by
  induction fuel generalizing i with
  | zero => rfl
  | succ n ih =>
    rw [scanFruit]
    split_ifs with h1 h2
    · exact absurd (Position.ext h2.1 h2.2).symm (h i le_rfl h1)
    · exact ih (i + 1) (fun j hj => h j (by omega))
    · rfl

theorem scanFruit_skip (n fuel i : Nat) (s : Globals) (hlt : i + n ≤ s.fruitSize)
    (h : ∀ j, i ≤ j → j < i + n → s.fruit j ≠ s.snake 0) :
    scanFruit (n + fuel) i s = scanFruit fuel (i + n) s := by
  induction n generalizing i with
  | zero => simp
  | succ n ih =>
    have e : n + 1 + fuel = (n + fuel) + 1 := by omega
    rw [e, scanFruit]
    have h1 : i < s.fruitSize := by omega
    have h2 : ¬ ((s.snake 0).x = (s.fruit i).x ∧ (s.snake 0).y = (s.fruit i).y) := by
      intro hc
      exact h i le_rfl (by omega) (Position.ext hc.1 hc.2).symm
    rw [if_pos h1, if_neg h2, ih (i + 1) (by omega) (fun j hj hj2 => h j (by omega) (by omega))]
    congr 1
    omega

/-- The iteration bound of the fruit scan is never the reason it stops: once the
bound covers the entries still to be visited, a larger bound gives the same
result. -/
theorem scanFruit_fuel (fuel extra i : Nat) (s : Globals) (h : s.fruitSize ≤ i + fuel) :
    scanFruit (fuel + extra) i s = scanFruit fuel i s := by
  induction fuel generalizing i s with
  | zero =>
    have hi : ¬ i < s.fruitSize := by omega
    cases extra with
    | zero => rfl
    | succ e =>
      rw [Nat.zero_add]
      show scanFruit (e + 1) i s = s
      rw [scanFruit, if_neg hi]
  | succ n ih =>
    have e : n + 1 + extra = (n + extra) + 1 := by omega
    rw [e, scanFruit, scanFruit]
    split_ifs with h1 h2
    · apply ih
      show (s.fruitSize + 255) % 256 ≤ i + 1 + n
      omega
    · apply ih
      omega
    · rfl

theorem eatFruit_fruit_apply (s : Globals) (k j : Nat) (hk : k < s.fruitSize)
    (hfs : s.fruitSize < 256) :
    (eatFruit s k).fruit j = if k ≤ j ∧ j < s.fruitSize - 1 then s.fruit (j + 1) else s.fruit j := by
  have hk2 : k % 256 = k := Nat.mod_eq_of_lt (by omega)
  have hf2 : (s.fruitSize + 255) % 256 = s.fruitSize - 1 := by omega
  show shiftDown ((s.fruitSize + 255) % 256 - k % 256) (k % 256) s.fruit j = _
  rw [hk2, hf2, shiftDown_apply]
  have e : k + (s.fruitSize - 1 - k) = s.fruitSize - 1 := by omega
  rw [e]

theorem scanFruit_single (s : Globals) (k : Nat) (hk : k < s.fruitSize) (hfs : s.fruitSize < 256)
    (hm : s.fruit k = s.snake 0)
    (hu : ∀ j, j < s.fruitSize → j ≠ k → s.fruit j ≠ s.snake 0) :
    scanFruit s.fruitSize 0 s = eatFruit s k := by
  obtain ⟨m, hm1⟩ : ∃ m, s.fruitSize = k + (m + 1) := ⟨s.fruitSize - k - 1, by omega⟩
  have h0 := scanFruit_skip k (m + 1) 0 s (by omega) (fun j _ hj => hu j (by omega) (by omega))
  rw [← hm1] at h0
  rw [h0, Nat.zero_add, scanFruit, if_pos hk, if_pos ⟨by rw [hm], by rw [hm]⟩]
  apply scanFruit_no_match
  intro j hj1 hj2
  have hj3 : j < s.fruitSize - 1 := by
    have : (eatFruit s k).fruitSize = (s.fruitSize + 255) % 256 := rfl
    omega
  rw [eatFruit_fruit_apply s k j hk hfs, if_pos ⟨by omega, hj3⟩]
  exact hu (j + 1) (by omega) (by omega)

theorem fruitSeq_eatFruit (s : Globals) (k : Nat) (hk : k < s.fruitSize) (hfs : s.fruitSize < 256) :
    fruitSeq (eatFruit s k) = (fruitSeq s).eraseIdx k := by
  have hsz : (eatFruit s k).fruitSize = s.fruitSize - 1 := by
    show (s.fruitSize + 255) % 256 = _
    omega
  apply List.ext_getElem
  · simp [fruitSeq, hsz, List.length_eraseIdx, hk]
  · intro j h1 h2
    have hj : j < s.fruitSize - 1 := by
      simpa [fruitSeq, hsz] using h1
    simp only [fruitSeq, List.getElem_map, List.getElem_range, List.getElem_eraseIdx]
    rw [eatFruit_fruit_apply s k j hk hfs]
    by_cases hjk : j < k
    · have : ¬ (k ≤ j ∧ j < s.fruitSize - 1) := by omega
      simp [hjk, this]
    · have : k ≤ j ∧ j < s.fruitSize - 1 := by omega
      simp [hjk, this]

/-! ## Head movement -/

theorem advanceHead_ne_self (GRID_SIZE : Nat) (d : Direction) (p : Position)
    (h2 : 2 ≤ GRID_SIZE) (h256 : GRID_SIZE ≤ 256) (hp : OnGrid GRID_SIZE p) :
    advanceHead GRID_SIZE d p ≠ p := by
  obtain ⟨hx, hy⟩ := hp
  have hu := toU8_pred GRID_SIZE (by omega) h256
  intro h
  have ex := congrArg Position.x h
  have ey := congrArg Position.y h
  cases d <;> simp only [advanceHead] at ex ey <;> split_ifs at ex ey <;> simp only [hu] at ex ey <;> omega

theorem onGrid_one (p : Position) (hp : OnGrid 1 p) : p = { x := 0, y := 0 } := by
  obtain ⟨hx, hy⟩ := hp
  exact Position.ext (by simpa using hx) (by simpa using hy)

theorem advanceHead_one (d : Direction) :
    advanceHead 1 d { x := 0, y := 0 } = { x := 0, y := 0 } := by
  cases d <;> decide

/-- When every segment lies on the grid, a next head cell that differs from the
old segments `1 .. snakeLength-1` passes the collision test of `moveSnake`. -/
theorem moved_not_colliding (GRID_SIZE : Nat) (s : Globals) (hG : GRID_SIZE ≤ 256)
    (hsnake : ∀ i, i < s.snakeLength → OnGrid GRID_SIZE (s.snake i))
    (hself : ∀ i, 1 ≤ i → i < s.snakeLength →
      advanceHead GRID_SIZE s.gameState.currentDirection (s.snake 0) ≠ s.snake i) :
    isColliding { s with snake := movedSnake GRID_SIZE s } = false := by
  rw [isColliding_eq_false_iff]
  intro i h1 h2
  show movedSnake GRID_SIZE s 0 ≠ movedSnake GRID_SIZE s i
  have h3 : i < s.snakeLength := h2
  obtain ⟨j, rfl⟩ : ∃ j, i = j + 1 := ⟨i - 1, by omega⟩
  rw [movedSnake_zero, movedSnake_succ GRID_SIZE s j (by omega)]
  by_cases hj : j = 0
  · subst hj
    have hp0 := hsnake 0 (by omega)
    by_cases hg : 2 ≤ GRID_SIZE
    · exact advanceHead_ne_self GRID_SIZE _ _ hg hG hp0
    · have hg1 : GRID_SIZE = 1 := by
        have := hp0.1
        omega
      subst hg1
      have e0 := onGrid_one _ hp0
      have e1 := onGrid_one _ (hsnake 1 (by omega))
      intro _
      apply hself 1 le_rfl (by omega)
      rw [e0, e1, advanceHead_one]
  · exact hself j (by omega) (by omega)

/-- The same fact as `moved_not_colliding`, stated on the moved snake. -/
theorem moved_no_self_collision (GRID_SIZE : Nat) (s : Globals) (hG : GRID_SIZE ≤ 256)
    (hsnake : ∀ i, i < s.snakeLength → OnGrid GRID_SIZE (s.snake i))
    (hself : ∀ i, 1 ≤ i → i < s.snakeLength →
      advanceHead GRID_SIZE s.gameState.currentDirection (s.snake 0) ≠ s.snake i) :
    ∀ i, 1 ≤ i → i < s.snakeLength → movedSnake GRID_SIZE s 0 ≠ movedSnake GRID_SIZE s i :=
  (isColliding_eq_false_iff { s with snake := movedSnake GRID_SIZE s }).mp
    (moved_not_colliding GRID_SIZE s hG hsnake hself)

/-- The result of `moveSnake` when the moved snake passes the collision test and
exactly the fruit entry `k` lies under the new head. -/
theorem moveSnake_single_fruit (GRID_SIZE : Nat) (s : Globals) (k : Nat)
    (hrun : s.gameState.isRunning = true) (hlose : s.gameState.lose = false)
    (hcol : isColliding { s with snake := movedSnake GRID_SIZE s } = false)
    (hk : k < s.fruitSize) (hfs : s.fruitSize < 256)
    (hm : s.fruit k = movedSnake GRID_SIZE s 0)
    (hu : ∀ j, j < s.fruitSize → j ≠ k → s.fruit j ≠ movedSnake GRID_SIZE s 0) :
    moveSnake GRID_SIZE s = eatFruit { s with snake := movedSnake GRID_SIZE s } k := by
  unfold moveSnake
  simp only [hrun, hlose, Bool.not_false, Bool.and_self, if_true, hcol]
  exact scanFruit_single { s with snake := movedSnake GRID_SIZE s } k hk hfs hm hu

theorem scanFruit_snake (fuel i : Nat) (s : Globals) : (scanFruit fuel i s).snake = s.snake := by
  induction fuel generalizing i s with
  | zero => rfl
  | succ n ih =>
    rw [scanFruit]
    split_ifs
    · rw [ih]
      rfl
    · rw [ih]
    · rfl

/-- In a running, non-lost state the snake array after `moveSnake` is the moved
snake: neither the collision branch nor the fruit scan writes to it. -/
theorem moveSnake_snake (GRID_SIZE : Nat) (s : Globals)
    (hrun : s.gameState.isRunning = true) (hlose : s.gameState.lose = false) :
    (moveSnake GRID_SIZE s).snake = movedSnake GRID_SIZE s := by
  unfold moveSnake
  simp only [hrun, hlose, Bool.not_false, Bool.and_self, if_true]
  split_ifs
  · rfl
  · rw [scanFruit_snake]

theorem wrap_dec (G c : Nat) (hc : c < G) :
    (c + G - 1) % G = if c = 0 then G - 1 else c - 1 := by
  split_ifs with h
  · subst h
    rw [Nat.zero_add]
    exact Nat.mod_eq_of_lt (by omega)
  · have e : c + G - 1 = (c - 1) + G := by omega
    rw [e, Nat.add_mod_right]
    exact Nat.mod_eq_of_lt (by omega)

theorem wrap_inc (G c : Nat) (hc : c < G) :
    (c + 1) % G = if c + 1 = G then 0 else c + 1 := by
  split_ifs with h
  · rw [h, Nat.mod_self]
  · exact Nat.mod_eq_of_lt (by omega)

/-- On a grid of size 2 to 256 the `switch` of `moveSnake` is one toroidal step. -/
theorem advanceHead_eq_wrap (GRID_SIZE : Nat) (d : Direction) (p : Position)
    (h2 : 2 ≤ GRID_SIZE) (h256 : GRID_SIZE ≤ 256) (hp : OnGrid GRID_SIZE p) :
    advanceHead GRID_SIZE d p =
      match d with
      | .UP => { x := p.x, y := (p.y + GRID_SIZE - 1) % GRID_SIZE }
      | .DOWN => { x := p.x, y := (p.y + 1) % GRID_SIZE }
      | .LEFT => { x := (p.x + GRID_SIZE - 1) % GRID_SIZE, y := p.y }
      | .RIGHT => { x := (p.x + 1) % GRID_SIZE, y := p.y } := by
  obtain ⟨hx, hy⟩ := hp
  have hu := toU8_pred GRID_SIZE (by omega) h256
  cases d <;> simp only [advanceHead, wrap_dec _ _ hx, wrap_dec _ _ hy, wrap_inc _ _ hx,
    wrap_inc _ _ hy, hu] <;> split_ifs <;> first | rfl | (exfalso; omega) | (ext <;> simp; omega)

theorem advanceHead_one_axis (GRID_SIZE : Nat) (d : Direction) (p : Position)
    (h2 : 2 ≤ GRID_SIZE) (h256 : GRID_SIZE ≤ 256) (hp : OnGrid GRID_SIZE p) :
    ((advanceHead GRID_SIZE d p).x = p.x ∧ (advanceHead GRID_SIZE d p).y ≠ p.y) ∨
    ((advanceHead GRID_SIZE d p).x ≠ p.x ∧ (advanceHead GRID_SIZE d p).y = p.y) := by
  obtain ⟨hx, hy⟩ := hp
  have hu := toU8_pred GRID_SIZE (by omega) h256
  cases d <;> simp only [advanceHead] <;> split_ifs <;>
    simp only [hu, ne_eq, not_true_eq_false, true_and, and_true, false_and, and_false,
      or_false, false_or] <;> omega

/-- The four cells written by the loop of `ResetGame`. -/
theorem ResetGame_snake (GRID_SIZE : Nat) (s : Globals) (i : Nat) (hi : i < 4) :
    (ResetGame GRID_SIZE s).snake i =
      { x := toU8 (((GRID_SIZE / 2 % 256 : Nat) : Int) - (i : Int)), y := GRID_SIZE / 2 % 256 } := by
  interval_cases i <;> rfl

/-! ## The input step -/

theorem inputButtons_snake (pausePressed resetPressed : Bool) (s : Globals) :
    (inputButtons pausePressed resetPressed s).snake = s.snake := by
  cases pausePressed <;> cases resetPressed <;> rfl

theorem inputButtons_snakeLength (pausePressed resetPressed : Bool) (s : Globals) :
    (inputButtons pausePressed resetPressed s).snakeLength = s.snakeLength := by
  cases pausePressed <;> cases resetPressed <;> rfl

theorem inputButtons_currentDirection (pausePressed resetPressed : Bool) (s : Globals) :
    (inputButtons pausePressed resetPressed s).gameState.currentDirection
      = s.gameState.currentDirection := by
  cases pausePressed <;> cases resetPressed <;> rfl

theorem inputButtons_positionHasSnake (pausePressed resetPressed : Bool) (s : Globals)
    (x y : Nat) :
    positionHasSnake (inputButtons pausePressed resetPressed s) x y = positionHasSnake s x y := by
  cases pausePressed <;> cases resetPressed <;> rfl

theorem turn_currentDirection (s : Globals) (b : Bool) (d : Direction) :
    (if (!b) = true then { s with gameState := { s.gameState with currentDirection := d } }
      else s).gameState.currentDirection
      = if b = true then s.gameState.currentDirection else d := by
  cases b <;> rfl

theorem inputJoystick_currentDirection (GRID_SIZE : Nat) (joy : JoystickDir) (s : Globals) :
    (inputJoystick GRID_SIZE joy s).gameState.currentDirection =
      match joyTarget joy with
      | none => s.gameState.currentDirection
      | some d =>
        if positionHasSnake s (lookAhead GRID_SIZE d (s.snake 0)).x
            (lookAhead GRID_SIZE d (s.snake 0)).y = true
        then s.gameState.currentDirection else d := by
  cases joy <;> simp only [inputJoystick, joyTarget, lookAhead] <;>
    exact turn_currentDirection s _ _

/-- The direction after one input step: a reading that stands for direction `d`
commits `d` unless `positionHasSnake` reports the look-ahead cell as occupied;
the buttons do not touch the direction. -/
theorem vInputTaskStep_currentDirection (GRID_SIZE : Nat) (pausePressed resetPressed : Bool)
    (joy : JoystickDir) (s : Globals) :
    (vInputTaskStep GRID_SIZE pausePressed resetPressed joy s).gameState.currentDirection =
      match joyTarget joy with
      | none => s.gameState.currentDirection
      | some d =>
        if positionHasSnake s (lookAhead GRID_SIZE d (s.snake 0)).x
            (lookAhead GRID_SIZE d (s.snake 0)).y = true
        then s.gameState.currentDirection else d := by
  unfold vInputTaskStep
  rw [inputJoystick_currentDirection, inputButtons_snake, inputButtons_currentDirection]
  cases joyTarget joy with
  | none => rfl
  | some d => simp only [inputButtons_positionHasSnake]

theorem lookAhead_eq_advanceHead (GRID_SIZE : Nat) (d : Direction) (p : Position)
    (hG : GRID_SIZE ≤ 127) (hp : OnGrid GRID_SIZE p) :
    lookAhead GRID_SIZE d p = advanceHead GRID_SIZE d p := by
  obtain ⟨hx, hy⟩ := hp
  cases d <;> simp only [lookAhead, advanceHead, testCoord, toI8, toU8] <;> split_ifs <;>
    (ext <;> simp only []; omega)

/-- On a grid of size at most 129 with the head on the grid, the cell tested by
the input step is the cell `moveSnake` moves to or, at the two sizes 128 and 129
where the `int8_t` variable overflows, the head cell itself. -/
theorem lookAhead_cases (GRID_SIZE : Nat) (d : Direction) (p : Position)
    (hG : GRID_SIZE ≤ 129) (hp : OnGrid GRID_SIZE p) :
    lookAhead GRID_SIZE d p = advanceHead GRID_SIZE d p ∨ lookAhead GRID_SIZE d p = p := by
  obtain ⟨x, y⟩ := p
  obtain ⟨hx, hy⟩ := hp
  simp only at hx hy
  cases d <;> simp only [lookAhead, advanceHead, testCoord, toI8, toU8] <;> split_ifs <;>
    simp only [Position.mk.injEq, true_and, and_true] <;> omega

/-- What the input step does where the look-ahead is exact (`GRID_SIZE <= 127`,
head on the grid): for every button input, when the cell one step from the head
in the requested direction is not occupied by a snake segment, the input step
sets `currentDirection` to UP for N, NE and NW, to DOWN for S, SE and SW, to
RIGHT for E and to LEFT for W; for Center `currentDirection` is retained. -/
theorem input_direction_mapping (GRID_SIZE : Nat) (pausePressed resetPressed : Bool)
    (joy : JoystickDir) (s : Globals)
    (hG : GRID_SIZE ≤ 127) (hhead : OnGrid GRID_SIZE (s.snake 0)) :
    ((joy = .N ∨ joy = .NE ∨ joy = .NW) →
      (∀ i, i < s.snakeLength → s.snake i ≠ advanceHead GRID_SIZE .UP (s.snake 0)) →
      (vInputTaskStep GRID_SIZE pausePressed resetPressed joy s).gameState.currentDirection = .UP) ∧
    ((joy = .S ∨ joy = .SE ∨ joy = .SW) →
      (∀ i, i < s.snakeLength → s.snake i ≠ advanceHead GRID_SIZE .DOWN (s.snake 0)) →
      (vInputTaskStep GRID_SIZE pausePressed resetPressed joy s).gameState.currentDirection = .DOWN) ∧
    (joy = .E →
      (∀ i, i < s.snakeLength → s.snake i ≠ advanceHead GRID_SIZE .RIGHT (s.snake 0)) →
      (vInputTaskStep GRID_SIZE pausePressed resetPressed joy s).gameState.currentDirection = .RIGHT) ∧
    (joy = .W →
      (∀ i, i < s.snakeLength → s.snake i ≠ advanceHead GRID_SIZE .LEFT (s.snake 0)) →
      (vInputTaskStep GRID_SIZE pausePressed resetPressed joy s).gameState.currentDirection = .LEFT) ∧
    (joy = .Center →
      (vInputTaskStep GRID_SIZE pausePressed resetPressed joy s).gameState.currentDirection
        = s.gameState.currentDirection) := by
  have key : ∀ d, joyTarget joy = some d →
      (∀ i, i < s.snakeLength → s.snake i ≠ advanceHead GRID_SIZE d (s.snake 0)) →
      (vInputTaskStep GRID_SIZE pausePressed resetPressed joy s).gameState.currentDirection = d := by
    intro d hjoy hfree
    rw [vInputTaskStep_currentDirection, hjoy]
    have hp : ¬ positionHasSnake s (lookAhead GRID_SIZE d (s.snake 0)).x
        (lookAhead GRID_SIZE d (s.snake 0)).y = true := by
      rw [positionHasSnake_eq_true_iff, lookAhead_eq_advanceHead GRID_SIZE d _ hG hhead]
      rintro ⟨i, hi, he⟩
      exact hfree i hi he
    exact if_neg hp
  refine ⟨?_, ?_, ?_, ?_, ?_⟩
  · rintro (h | h | h) hfree <;> exact key .UP (by rw [h]; rfl) hfree
  · rintro (h | h | h) hfree <;> exact key .DOWN (by rw [h]; rfl) hfree
  · rintro h hfree
    exact key .RIGHT (by rw [h]; rfl) hfree
  · rintro h hfree
    exact key .LEFT (by rw [h]; rfl) hfree
  · rintro h
    rw [vInputTaskStep_currentDirection, h]
    rfl

/-- Input safety where the `int8_t` look-ahead does no harm, that is for every
grid of size at most 129 and every state whose head lies on the grid: for every
button input and every joystick reading that stands for a direction `d`
(N/NE/NW for UP, S/SE/SW for DOWN, E for RIGHT, W for LEFT), if the cell one step
from the head in direction `d` with wrap (the cell `moveSnake` would move to) is
occupied by a snake segment at index `0..snakeLength-1`, the input step leaves
`currentDirection` unchanged; this covers the turn directly opposite the heading,
where that cell is the segment right behind the head. -/
theorem input_rejects_occupied_cell (GRID_SIZE : Nat) (pausePressed resetPressed : Bool)
    (joy : JoystickDir) (s : Globals) (d : Direction)
    (hG : GRID_SIZE ≤ 129) (hhead : OnGrid GRID_SIZE (s.snake 0))
    (hjoy : joyTarget joy = some d)
    (hocc : ∃ i, i < s.snakeLength ∧ s.snake i = advanceHead GRID_SIZE d (s.snake 0)) :
    (vInputTaskStep GRID_SIZE pausePressed resetPressed joy s).gameState.currentDirection
      = s.gameState.currentDirection := by
  rw [vInputTaskStep_currentDirection, hjoy]
  have hp : positionHasSnake s (lookAhead GRID_SIZE d (s.snake 0)).x
      (lookAhead GRID_SIZE d (s.snake 0)).y = true := by
    rw [positionHasSnake_eq_true_iff]
    obtain ⟨i, hi, he⟩ := hocc
    rcases lookAhead_cases GRID_SIZE d (s.snake 0) hG hhead with h | h
    · rw [h]
      exact ⟨i, hi, he⟩
    · rw [h]
      exact ⟨0, by omega, rfl⟩
  simp only [hp, if_true]

/-! ## Claims -/

theorem exLong_onGrid : ∀ i, i < exLong.snakeLength → OnGrid 16 (exLong.snake i) := by
  intro i _
  show OnGrid 16 (if i = 0 then ({ x := 5, y := 0 } : Position) else { x := 0, y := 0 })
  split_ifs <;> decide

theorem exLong_head_free : ∀ i, 1 ≤ i → i < exLong.snakeLength →
    advanceHead 16 exLong.gameState.currentDirection (exLong.snake 0) ≠ exLong.snake i := by
  intro i h1 _
  have e : exLong.snake i = { x := 0, y := 0 } := by
    show (if i = 0 then ({ x := 5, y := 0 } : Position) else { x := 0, y := 0 })
      = { x := 0, y := 0 }
    rw [if_neg (by omega)]
  rw [e]
  decide

/-- At `exLong` the move passes the collision test and eats the fruit entry 0. -/
theorem exLong_moveSnake :
    moveSnake 16 exLong = eatFruit { exLong with snake := movedSnake 16 exLong } 0 := by
  apply moveSnake_single_fruit 16 exLong 0 rfl rfl
    (moved_not_colliding 16 exLong (by decide) exLong_onGrid exLong_head_free)
    (by decide) (by decide)
  · rw [movedSnake_zero]
    decide
  · intro j hj hne
    have : j < 1 := hj
    omega

/-- C1, as stated, fails at `exLong` with `MAX_LEN = 256` on a grid of size 16: the
game runs, is not lost, `snakeLength = 255 < MAX_LEN`, all coordinates lie on the
grid, the next head cell differs from every other segment and equals exactly the
fruit entry 0; after `moveSnake` the `uint8_t` length is 0, not 256. -/
theorem moveSnake_eats_fruit_length_wraps :
    exLong.gameState.isRunning = true ∧ exLong.gameState.lose = false ∧
    exLong.snakeLength < 256 ∧
    (∀ i, i < exLong.snakeLength → OnGrid 16 (exLong.snake i)) ∧
    (∀ i, i < exLong.fruitSize → OnGrid 16 (exLong.fruit i)) ∧
    (∀ i, 1 ≤ i → i < exLong.snakeLength →
      advanceHead 16 exLong.gameState.currentDirection (exLong.snake 0) ≠ exLong.snake i) ∧
    (0 < exLong.fruitSize ∧
      exLong.fruit 0 = advanceHead 16 exLong.gameState.currentDirection (exLong.snake 0)) ∧
    (∀ j, j < exLong.fruitSize → j ≠ 0 →
      exLong.fruit j ≠ advanceHead 16 exLong.gameState.currentDirection (exLong.snake 0)) ∧
    (moveSnake 16 exLong).snakeLength = 0 ∧
    (moveSnake 16 exLong).snakeLength ≠ exLong.snakeLength + 1 := by
  refine ⟨rfl, rfl, by decide, exLong_onGrid, by decide, exLong_head_free, by decide, by decide,
    ?_, ?_⟩
  · rw [exLong_moveSnake]
    rfl
  · rw [exLong_moveSnake]
    show (255 + 1) % 256 ≠ 255 + 1
    decide

/-- C1, amended. Fruit consumption by `moveSnake`: in a running, non-lost state with
`snakeLength < MAX_LEN`, if the moved snake does not self-collide (its new head
coincides with none of its segments `1 .. snakeLength-1`) and the new head equals
exactly one fruit entry `fruit[k]`, then the length grows by 1 modulo 256 (by
exactly 1 when the old length is below 255), the score grows by 1 modulo 256,
`fruitSize` drops by 1 and the fruit sequence is the old one with entry `k`
erased, the others in their old order.  `fruitSize < 256` says that the counter
is a `uint8_t`. -/
theorem moveSnake_eats_fruit (GRID_SIZE MAX_LEN : Nat) (s : Globals) (k : Nat)
    (hF : s.fruitSize < 256)
    (hrun : s.gameState.isRunning = true) (hlose : s.gameState.lose = false)
    (_hlen : s.snakeLength < MAX_LEN)
    (hself : ∀ i, 1 ≤ i → i < s.snakeLength →
      movedSnake GRID_SIZE s 0 ≠ movedSnake GRID_SIZE s i)
    (hk : k < s.fruitSize)
    (hm : s.fruit k = advanceHead GRID_SIZE s.gameState.currentDirection (s.snake 0))
    (hu : ∀ j, j < s.fruitSize → j ≠ k →
      s.fruit j ≠ advanceHead GRID_SIZE s.gameState.currentDirection (s.snake 0)) :
    (moveSnake GRID_SIZE s).snakeLength = (s.snakeLength + 1) % 256 ∧
    (s.snakeLength < 255 → (moveSnake GRID_SIZE s).snakeLength = s.snakeLength + 1) ∧
    (moveSnake GRID_SIZE s).score = (s.score + 1) % 256 ∧
    (moveSnake GRID_SIZE s).fruitSize = s.fruitSize - 1 ∧
    fruitSeq (moveSnake GRID_SIZE s) = (fruitSeq s).eraseIdx k := by
  have hcol : isColliding { s with snake := movedSnake GRID_SIZE s } = false :=
    (isColliding_eq_false_iff _).mpr hself
  have hm0 := movedSnake_zero GRID_SIZE s
  rw [moveSnake_single_fruit GRID_SIZE s k hrun hlose hcol hk hF (by rw [hm0]; exact hm)
    (by rw [hm0]; exact hu)]
  refine ⟨rfl, ?_, rfl, ?_, ?_⟩
  · intro h
    show (s.snakeLength + 1) % 256 = _
    omega
  · show (s.fruitSize + 255) % 256 = _
    omega
  · exact fruitSeq_eatFruit { s with snake := movedSnake GRID_SIZE s } k hk hF

/-- C1 amended, at `exEat` (grid 16, capacity 8): entry 1 is eaten, the score wraps
from 255 to 0. -/
theorem moveSnake_eats_fruit_witness :
    (moveSnake 16 exEat).snakeLength = 5 ∧
    (moveSnake 16 exEat).score = 0 ∧
    (moveSnake 16 exEat).fruitSize = 2 ∧
    fruitSeq (moveSnake 16 exEat) = [⟨1, 1⟩, ⟨7, 7⟩] :=
  ⟨(moveSnake_eats_fruit 16 8 exEat 1 (by decide) rfl rfl (by decide) (by decide) (by decide)
      (by decide) (by decide)).2.1 (by decide),
   (moveSnake_eats_fruit 16 8 exEat 1 (by decide) rfl rfl (by decide) (by decide) (by decide)
      (by decide) (by decide)).2.2.1,
   (moveSnake_eats_fruit 16 8 exEat 1 (by decide) rfl rfl (by decide) (by decide) (by decide)
      (by decide) (by decide)).2.2.2.1,
   (moveSnake_eats_fruit 16 8 exEat 1 (by decide) rfl rfl (by decide) (by decide) (by decide)
      (by decide) (by decide)).2.2.2.2⟩

/-- C2. Two fruits eaten by one call: at `exTwoFruit` (running, not lost, no
self-collision) entries 0 and 2 both lie on the next head cell, and one call of
`moveSnake` removes both, so `fruitSize` drops by 2 while `snakeLength` and
`score` grow by 2. -/
theorem moveSnake_eats_two_fruits :
    exTwoFruit.gameState.isRunning = true ∧ exTwoFruit.gameState.lose = false ∧
    exTwoFruit.fruitSize = 3 ∧ exTwoFruit.snakeLength = 4 ∧ exTwoFruit.score = 0 ∧
    (moveSnake 16 exTwoFruit).gameState.lose = false ∧
    (moveSnake 16 exTwoFruit).fruitSize = 1 ∧
    (moveSnake 16 exTwoFruit).snakeLength = 6 ∧
    (moveSnake 16 exTwoFruit).score = 2 ∧
    fruitSeq (moveSnake 16 exTwoFruit) = [⟨1, 1⟩] := by
  decide

/-- C3, as stated, fails at `exTail` (grid 16, capacity 8): the next head cell
equals the old tail `snake[snakeLength-1]`, yet `moveSnake` leaves `lose = false`. -/
theorem moveSnake_tail_cell_not_lost :
    exTail.gameState.isRunning = true ∧ exTail.gameState.lose = false ∧
    exTail.snakeLength < 8 ∧
    (1 ≤ 3 ∧ 3 ≤ exTail.snakeLength - 1 ∧
      advanceHead 16 exTail.gameState.currentDirection (exTail.snake 0) = exTail.snake 3) ∧
    (moveSnake 16 exTail).gameState.lose = false := by
  decide

/-- C3, amended. Self-collision detection by `moveSnake`: in a running, non-lost
state with `snakeLength < MAX_LEN`, if the next head cell equals an old segment
`snake[i]` with `1 <= i <= snakeLength-2` (any non-head segment but the tail),
then `lose = true` afterwards and nothing was eaten: score, `snakeLength`,
`fruitSize` and the fruit array are unchanged. -/
theorem moveSnake_self_collision (GRID_SIZE MAX_LEN : Nat) (s : Globals) (i : Nat)
    (hrun : s.gameState.isRunning = true) (hlose : s.gameState.lose = false)
    (_hlen : s.snakeLength < MAX_LEN)
    (_h1 : 1 ≤ i) (h2 : i + 2 ≤ s.snakeLength)
    (hhit : advanceHead GRID_SIZE s.gameState.currentDirection (s.snake 0) = s.snake i) :
    (moveSnake GRID_SIZE s).gameState.lose = true ∧
    (moveSnake GRID_SIZE s).score = s.score ∧
    (moveSnake GRID_SIZE s).snakeLength = s.snakeLength ∧
    (moveSnake GRID_SIZE s).fruitSize = s.fruitSize ∧
    (moveSnake GRID_SIZE s).fruit = s.fruit := by
  have hcol : isColliding { s with snake := movedSnake GRID_SIZE s } = true := by
    rw [isColliding_eq_true_iff]
    refine ⟨i + 1, by omega, ?_, ?_⟩
    · show i + 1 < s.snakeLength
      omega
    · show movedSnake GRID_SIZE s 0 = movedSnake GRID_SIZE s (i + 1)
      rw [movedSnake_zero, movedSnake_succ GRID_SIZE s i (by omega), hhit]
  unfold moveSnake
  simp only [hrun, hlose, Bool.not_false, Bool.and_self, if_true, hcol]
  exact ⟨rfl, rfl, rfl, rfl, rfl⟩

/-- C3 amended, at `exHit` (grid 16, capacity 8): the next head cell is the cell
of `snake[3]`, the game is lost and the fruit lying on that cell is not eaten. -/
theorem moveSnake_self_collision_witness :
    (moveSnake 16 exHit).gameState.lose = true ∧
    (moveSnake 16 exHit).score = exHit.score ∧
    (moveSnake 16 exHit).snakeLength = exHit.snakeLength ∧
    (moveSnake 16 exHit).fruitSize = exHit.fruitSize ∧
    (moveSnake 16 exHit).fruit = exHit.fruit :=
  moveSnake_self_collision 16 8 exHit 3 rfl rfl (by decide) (by decide) (by decide) (by decide)

/-- C4. Toroidal head movement: for `2 <= GRID_SIZE <= 256` and a head `(x, y)`
on the grid, in a running non-lost state `moveSnake` sets the head to
`(x, (y + GRID_SIZE - 1) mod GRID_SIZE)` for UP, `(x, (y + 1) mod GRID_SIZE)` for
DOWN, `((x + GRID_SIZE - 1) mod GRID_SIZE, y)` for LEFT and
`((x + 1) mod GRID_SIZE, y)` for RIGHT; exactly one axis changes; UP from `y = 0`
gives `y = GRID_SIZE-1` and RIGHT from `x = GRID_SIZE-1` gives `x = 0`. -/
theorem moveSnake_head_toroidal (GRID_SIZE : Nat) (s : Globals)
    (h2 : 2 ≤ GRID_SIZE) (h256 : GRID_SIZE ≤ 256)
    (hrun : s.gameState.isRunning = true) (hlose : s.gameState.lose = false)
    (hx : (s.snake 0).x < GRID_SIZE) (hy : (s.snake 0).y < GRID_SIZE) :
    ((moveSnake GRID_SIZE s).snake 0 =
      match s.gameState.currentDirection with
      | .UP => { x := (s.snake 0).x, y := ((s.snake 0).y + GRID_SIZE - 1) % GRID_SIZE }
      | .DOWN => { x := (s.snake 0).x, y := ((s.snake 0).y + 1) % GRID_SIZE }
      | .LEFT => { x := ((s.snake 0).x + GRID_SIZE - 1) % GRID_SIZE, y := (s.snake 0).y }
      | .RIGHT => { x := ((s.snake 0).x + 1) % GRID_SIZE, y := (s.snake 0).y }) ∧
    ((((moveSnake GRID_SIZE s).snake 0).x = (s.snake 0).x ∧
        ((moveSnake GRID_SIZE s).snake 0).y ≠ (s.snake 0).y) ∨
      (((moveSnake GRID_SIZE s).snake 0).x ≠ (s.snake 0).x ∧
        ((moveSnake GRID_SIZE s).snake 0).y = (s.snake 0).y)) ∧
    (s.gameState.currentDirection = .UP → (s.snake 0).y = 0 →
      ((moveSnake GRID_SIZE s).snake 0).y = GRID_SIZE - 1) ∧
    (s.gameState.currentDirection = .RIGHT → (s.snake 0).x = GRID_SIZE - 1 →
      ((moveSnake GRID_SIZE s).snake 0).x = 0) := by
  have hs : (moveSnake GRID_SIZE s).snake 0
      = advanceHead GRID_SIZE s.gameState.currentDirection (s.snake 0) := by
    rw [moveSnake_snake GRID_SIZE s hrun hlose, movedSnake_zero]
  have hu := toU8_pred GRID_SIZE (by omega) h256
  refine ⟨?_, ?_, ?_, ?_⟩
  · rw [hs]
    exact advanceHead_eq_wrap GRID_SIZE _ _ h2 h256 ⟨hx, hy⟩
  · rw [hs]
    exact advanceHead_one_axis GRID_SIZE _ _ h2 h256 ⟨hx, hy⟩
  · intro hd h0
    rw [hs, hd]
    simp only [advanceHead, h0, if_true, hu]
  · intro hd h0
    have h1 : ((s.snake 0).x : Int) = (GRID_SIZE : Int) - 1 := by omega
    rw [hs, hd]
    simp only [advanceHead, h1, if_true]

/-- C4 at `exBottom` on a grid of size 128, heading RIGHT from `(5,127)`. -/
theorem moveSnake_head_toroidal_witness :
    (moveSnake 128 exBottom).snake 0 = { x := 6, y := 127 } :=
  (moveSnake_head_toroidal 128 exBottom (by decide) (by decide) rfl rfl (by decide) (by decide)).1

/-- C5. `ResetGame` postcondition: from every prior state, afterwards
`snakeLength = 4`, `fruitSize = 0`, `score = 0`, `lose = false`,
`isRunning = true`, `needsReset = false` and `currentDirection = RIGHT`. -/
theorem ResetGame_postcondition (GRID_SIZE : Nat) (s : Globals) :
    (ResetGame GRID_SIZE s).snakeLength = 4 ∧
    (ResetGame GRID_SIZE s).fruitSize = 0 ∧
    (ResetGame GRID_SIZE s).score = 0 ∧
    (ResetGame GRID_SIZE s).gameState.lose = false ∧
    (ResetGame GRID_SIZE s).gameState.isRunning = true ∧
    (ResetGame GRID_SIZE s).gameState.needsReset = false ∧
    (ResetGame GRID_SIZE s).gameState.currentDirection = .RIGHT :=
  ⟨rfl, rfl, rfl, rfl, rfl, rfl, rfl⟩

/-- C6, as stated, fails on a grid of size 4: `ResetGame` puts segment 3 at
`x = 255`, not at `(4/2 - 3) mod 4 = 3`, and that cell is off the grid. -/
theorem ResetGame_small_grid_off_grid :
    (2 ≤ 4) ∧
    (ResetGame 4 initGlobals).snake 3 = { x := 255, y := 2 } ∧
    (((4 / 2 : Int) - 3) % 4 = 3) ∧
    ¬ OnGrid 4 ((ResetGame 4 initGlobals).snake 3) := by
  decide

/-- C6, amended. `ResetGame` snake placement for `6 <= GRID_SIZE <= 511`: the
head `snake[0]` is at the grid centre `(GRID_SIZE/2, GRID_SIZE/2)` and each body
segment `i` in `1..3` is at `((GRID_SIZE/2 - i) mod GRID_SIZE, GRID_SIZE/2)`,
which is `(GRID_SIZE/2 - i, GRID_SIZE/2)` without any wrap; every one of the four
segments lies on the grid. -/
theorem ResetGame_placement (GRID_SIZE : Nat) (s : Globals)
    (h6 : 6 ≤ GRID_SIZE) (h511 : GRID_SIZE ≤ 511) :
    (ResetGame GRID_SIZE s).snake 0 = { x := GRID_SIZE / 2, y := GRID_SIZE / 2 } ∧
    (∀ i, 1 ≤ i → i ≤ 3 →
      (ResetGame GRID_SIZE s).snake i =
        { x := ((((GRID_SIZE / 2 : Nat) : Int) - (i : Int)) % (GRID_SIZE : Int)).toNat,
          y := GRID_SIZE / 2 } ∧
      (ResetGame GRID_SIZE s).snake i = { x := GRID_SIZE / 2 - i, y := GRID_SIZE / 2 }) ∧
    (∀ i, i ≤ 3 → OnGrid GRID_SIZE ((ResetGame GRID_SIZE s).snake i)) := by
  have hc : GRID_SIZE / 2 % 256 = GRID_SIZE / 2 := Nat.mod_eq_of_lt (by omega)
  have key : ∀ i, i ≤ 3 →
      (ResetGame GRID_SIZE s).snake i = { x := GRID_SIZE / 2 - i, y := GRID_SIZE / 2 } := by
    intro i hi
    rw [ResetGame_snake GRID_SIZE s i (by omega), hc]
    ext
    · show toU8 (((GRID_SIZE / 2 : Nat) : Int) - (i : Int)) = GRID_SIZE / 2 - i
      unfold toU8
      omega
    · rfl
  refine ⟨key 0 (by omega), ?_, ?_⟩
  · intro i h1 h3
    refine ⟨?_, key i h3⟩
    rw [key i h3]
    ext
    · show GRID_SIZE / 2 - i = (_ : Int).toNat
      have e : (((GRID_SIZE / 2 : Nat) : Int) - (i : Int)) % (GRID_SIZE : Int)
          = ((GRID_SIZE / 2 : Nat) : Int) - (i : Int) :=
        Int.emod_eq_of_lt (by omega) (by omega)
      rw [e]
      omega
    · rfl
  · intro i hi
    rw [key i hi]
    constructor
    · show GRID_SIZE / 2 - i < GRID_SIZE
      omega
    · show GRID_SIZE / 2 < GRID_SIZE
      omega

/-- C6 amended, on a grid of size 16: the snake lies at `(8,8), (7,8), (6,8), (5,8)`. -/
theorem ResetGame_placement_witness :
    (ResetGame 16 exEat).snake 0 = { x := 8, y := 8 } ∧
    (ResetGame 16 exEat).snake 3 = { x := 5, y := 8 } ∧
    OnGrid 16 ((ResetGame 16 exEat).snake 3) :=
  ⟨(ResetGame_placement 16 exEat (by decide) (by decide)).1,
   ((ResetGame_placement 16 exEat (by decide) (by decide)).2.1 3 (by decide) (by decide)).2,
   (ResetGame_placement 16 exEat (by decide) (by decide)).2.2 3 (by decide)⟩

/-- C8. A free target cell refused: on a grid of size 128 at `exBottom` the head
is at `(5,127)` on the grid, the reading S stands for DOWN, the target cell
`(5,0)` one step down with wrap is free of the snake, and the input step keeps
the direction RIGHT instead of setting DOWN. -/
theorem input_down_refused_on_grid_128 :
    OnGrid 128 (exBottom.snake 0) ∧
    advanceHead 128 .DOWN (exBottom.snake 0) = { x := 5, y := 0 } ∧
    (∀ i, i < exBottom.snakeLength → exBottom.snake i ≠ advanceHead 128 .DOWN (exBottom.snake 0)) ∧
    lookAhead 128 .DOWN (exBottom.snake 0) = exBottom.snake 0 ∧
    (vInputTaskStep 128 false false .S exBottom).gameState.currentDirection = .RIGHT := by
  decide

/-- C9. `moveSnake` is a no-op when the game is paused or lost: with
`isRunning = false` or `lose = true` the whole state is returned unchanged: the
snake array, `snakeLength`, the fruit array, `fruitSize`, the score, every field
of `gameState` and the log of posted audio events. -/
theorem moveSnake_noop (GRID_SIZE : Nat) (s : Globals)
    (h : s.gameState.isRunning = false ∨ s.gameState.lose = true) :
    moveSnake GRID_SIZE s = s := by
  unfold moveSnake
  rcases h with h | h
  · simp [h]
  · simp [h]

/-- C9 at `exLost`, a lost game with a fruit on the next head cell. -/
theorem moveSnake_noop_witness : moveSnake 16 exLost = exLost :=
  moveSnake_noop 16 exLost (Or.inr rfl)

/-- C10. Growth past the capacity: at `exNearFull` with `MAX_LEN = 8` the game
runs, is not lost, `snakeLength = 7` lies in `1 .. MAX_LEN`, and every array
access of the call stays inside the arrays (the shift writes `snake[1 .. 7]`).
Fruit entries 0 and 2 lie on the next head cell, `moveSnake` eats both, and the
length is 9 afterwards, above the capacity; the score has grown by 2. -/
theorem moveSnake_grows_past_capacity :
    exNearFull.gameState.isRunning = true ∧ exNearFull.gameState.lose = false ∧
    1 ≤ exNearFull.snakeLength ∧ exNearFull.snakeLength ≤ 8 ∧
    MoveInBounds 8 exNearFull ∧
    (∀ i ∈ shiftWrites exNearFull.snakeLength, i < 8) ∧
    (moveSnake 16 exNearFull).gameState.lose = false ∧
    (moveSnake 16 exNearFull).snakeLength = 9 ∧
    ¬ (moveSnake 16 exNearFull).snakeLength ≤ 8 ∧
    (moveSnake 16 exNearFull).score = 2 := by
  decide

/-! ## The fruit generator -/

theorem appendFruit_iterate_frame (n : Nat) (s : Globals) :
    (appendFruit^[n] s).snake = s.snake ∧ (appendFruit^[n] s).snakeLength = s.snakeLength ∧
    (appendFruit^[n] s).gameState = s.gameState ∧
    (appendFruit^[n] s).generatedX = s.generatedX ∧
    (appendFruit^[n] s).generatedY = s.generatedY ∧
    (appendFruit^[n] s).score = s.score ∧ (appendFruit^[n] s).posted = s.posted := by
  induction n generalizing s with
  | zero => exact ⟨rfl, rfl, rfl, rfl, rfl, rfl, rfl⟩
  | succ n ih =>
    rw [Function.iterate_succ_apply]
    exact ih (appendFruit s)

theorem drawCandidate_frame (GRID_SIZE : Nat) (draws : List Nat) (s : Globals) :
    (drawCandidate GRID_SIZE draws s).snake = s.snake ∧
    (drawCandidate GRID_SIZE draws s).snakeLength = s.snakeLength ∧
    (drawCandidate GRID_SIZE draws s).gameState = s.gameState ∧
    (drawCandidate GRID_SIZE draws s).fruit = s.fruit ∧
    (drawCandidate GRID_SIZE draws s).fruitSize = s.fruitSize ∧
    (drawCandidate GRID_SIZE draws s).score = s.score ∧
    (drawCandidate GRID_SIZE draws s).posted = s.posted := by
  match draws with
  | [] => exact ⟨rfl, rfl, rfl, rfl, rfl, rfl, rfl⟩
  | [_] => exact ⟨rfl, rfl, rfl, rfl, rfl, rfl, rfl⟩
  | _ :: _ :: _ => exact ⟨rfl, rfl, rfl, rfl, rfl, rfl, rfl⟩

/-- The loop of `generateFruitTick` in closed form: it performs some number `n`
of appends, and it performs one only while the game runs and
`positionHasSnake` rejects the candidate. -/
theorem fruitLoop_closed (RAND_MAX : Nat) (draws : List Nat) (s : Globals) :
    ∃ n, (fruitLoop RAND_MAX draws s).1 = appendFruit^[n] s ∧ n ≤ draws.length ∧
      (0 < n → s.gameState.isRunning = true ∧
        positionHasSnake s s.generatedX s.generatedY = false) := by
  induction draws generalizing s with
  | nil => exact ⟨0, rfl, le_rfl, fun h => absurd h (by omega)⟩
  | cons r rest ih =>
    rw [fruitLoop]
    by_cases hc : (s.gameState.isRunning && decide (r < RAND_MAX / 10)) = true
    · rw [if_pos hc]
      have hrun : s.gameState.isRunning = true := by
        simp only [Bool.and_eq_true] at hc
        exact hc.1
      cases hp : positionHasSnake s s.generatedX s.generatedY with
      | true =>
        have hb : fruitBody s = s := by simp [fruitBody, hp]
        rw [hb]
        obtain ⟨n, h1, h2, h3⟩ := ih s
        refine ⟨n, h1, by simp only [List.length_cons]; omega, ?_⟩
        intro hn
        have := (h3 hn).2
        rw [hp] at this
        exact absurd this (by decide)
      | false =>
        have hb : fruitBody s = appendFruit s := by simp [fruitBody, hp]
        rw [hb]
        obtain ⟨n, h1, h2, _⟩ := ih (appendFruit s)
        refine ⟨n + 1, ?_, by simp only [List.length_cons]; omega, fun _ => ⟨hrun, rfl⟩⟩
        rw [h1, Function.iterate_succ_apply]
    · rw [if_neg hc]
      exact ⟨0, rfl, Nat.zero_le _, fun h => absurd h (by omega)⟩

/-- The whole of `generateFruitTick` in closed form. -/
theorem generateFruitTick_closed (GRID_SIZE RAND_MAX : Nat) (draws : List Nat) (s : Globals) :
    ∃ n, (generateFruitTick GRID_SIZE RAND_MAX draws s).1
        = appendFruit^[n] (drawCandidate GRID_SIZE draws s) ∧
      (0 < n → s.gameState.isRunning = true ∧
        positionHasSnake s (drawCandidate GRID_SIZE draws s).generatedX
          (drawCandidate GRID_SIZE draws s).generatedY = false) := by
  have hf := drawCandidate_frame GRID_SIZE draws s
  have hp : ∀ x y, positionHasSnake (drawCandidate GRID_SIZE draws s) x y = positionHasSnake s x y := by
    intro x y
    unfold positionHasSnake
    rw [hf.1, hf.2.1]
  match draws, hf, hp with
  | [], _, _ => exact ⟨0, rfl, fun h => absurd h (by omega)⟩
  | [_], _, _ => exact ⟨0, rfl, fun h => absurd h (by omega)⟩
  | rx :: ry :: rest, hf, hp =>
    obtain ⟨n, h1, _, h3⟩ := fruitLoop_closed RAND_MAX rest (drawCandidate GRID_SIZE (rx :: ry :: rest) s)
    refine ⟨n, h1, fun hn => ?_⟩
    obtain ⟨ha, hb⟩ := h3 hn
    rw [hf.2.2.1] at ha
    rw [hp] at hb
    exact ⟨ha, hb⟩

theorem fruitBody_gameState (s : Globals) : (fruitBody s).gameState = s.gameState := by
  unfold fruitBody
  split_ifs <;> rfl

/-- The loop of `generateFruitTick` ends when the game does not run or when one
of the `rand()` values is not below `RAND_MAX / 10`. -/
theorem fruitLoop_returns (RAND_MAX : Nat) (draws : List Nat) (s : Globals)
    (h : s.gameState.isRunning = false ∨ ∃ r, r ∈ draws ∧ RAND_MAX / 10 ≤ r) :
    (fruitLoop RAND_MAX draws s).2 = true := by
  induction draws generalizing s with
  | nil =>
    rcases h with h | ⟨r, hr, _⟩
    · simp [fruitLoop, h]
    · exact absurd hr (List.not_mem_nil r)
  | cons r rest ih =>
    rw [fruitLoop]
    by_cases hc : (s.gameState.isRunning && decide (r < RAND_MAX / 10)) = true
    · rw [if_pos hc]
      simp only [Bool.and_eq_true, decide_eq_true_eq] at hc
      apply ih
      rw [fruitBody_gameState]
      rcases h with h | ⟨q, hq, hle⟩
      · rw [h] at hc
        exact absurd hc.1 (by decide)
      · right
        rcases List.mem_cons.mp hq with he | hq2
        · subst he
          omega
        · exact ⟨q, hq2, hle⟩
    · rw [if_neg hc]

/-- A call of `generateFruitTick` returns once `rand()` has given the two
candidate coordinates and then, while the game runs, a value that is not below
`RAND_MAX / 10`. -/
theorem generateFruitTick_returns (GRID_SIZE RAND_MAX : Nat) (rx ry : Nat) (rest : List Nat)
    (s : Globals)
    (h : s.gameState.isRunning = false ∨ ∃ r, r ∈ rest ∧ RAND_MAX / 10 ≤ r) :
    (generateFruitTick GRID_SIZE RAND_MAX (rx :: ry :: rest) s).2 = true := by
  apply fruitLoop_returns
  exact h

theorem generateFruitTick_gameState (GRID_SIZE RAND_MAX : Nat) (draws : List Nat) (s : Globals) :
    (generateFruitTick GRID_SIZE RAND_MAX draws s).1.gameState = s.gameState := by
  obtain ⟨n, h, _⟩ := generateFruitTick_closed GRID_SIZE RAND_MAX draws s
  rw [h, (appendFruit_iterate_frame n _).2.2.1, (drawCandidate_frame GRID_SIZE draws s).2.2.1]

theorem inputButtons_lose (pausePressed resetPressed : Bool) (s : Globals) :
    (inputButtons pausePressed resetPressed s).gameState.lose = s.gameState.lose := by
  cases pausePressed <;> cases resetPressed <;> rfl

theorem turn_lose (s : Globals) (b : Bool) (d : Direction) :
    (if (!b) = true then { s with gameState := { s.gameState with currentDirection := d } }
      else s).gameState.lose = s.gameState.lose := by
  cases b <;> rfl

theorem inputJoystick_lose (GRID_SIZE : Nat) (joy : JoystickDir) (s : Globals) :
    (inputJoystick GRID_SIZE joy s).gameState.lose = s.gameState.lose := by
  cases joy <;> simp only [inputJoystick] <;> exact turn_lose s _ _

/-- The write list `shiftWrites` is the list of writes of the shift loop: the
loop is the fold of `snake[i] = snake[i - 1]` over it. -/
theorem shiftBody_eq_fold_writes (n : Nat) (a : Nat → Position) :
    shiftBody n a = (shiftWrites n).foldl (fun b i => Function.update b i (b (i - 1))) a := by
  induction n generalizing a with
  | zero => rfl
  | succ n ih =>
    rw [shiftBody, shiftWrites, List.foldl_cons, ih]
    rfl

theorem mem_shiftWrites (n i : Nat) : i ∈ shiftWrites n ↔ 1 ≤ i ∧ i ≤ n := by
  induction n with
  | zero =>
    simp only [shiftWrites, List.not_mem_nil, false_iff]
    omega
  | succ n ih =>
    simp only [shiftWrites, List.mem_cons, ih]
    omega

/-- The result of `moveSnake` when the moved snake passes the collision test and
no fruit entry lies under the new head. -/
theorem moveSnake_no_fruit (GRID_SIZE : Nat) (s : Globals)
    (hrun : s.gameState.isRunning = true) (hlose : s.gameState.lose = false)
    (hcol : isColliding { s with snake := movedSnake GRID_SIZE s } = false)
    (hno : ∀ j, j < s.fruitSize → s.fruit j ≠ movedSnake GRID_SIZE s 0) :
    moveSnake GRID_SIZE s = { s with snake := movedSnake GRID_SIZE s } := by
  unfold moveSnake
  simp only [hrun, hlose, Bool.not_false, Bool.and_self, if_true, hcol]
  exact scanFruit_no_match _ 0 { s with snake := movedSnake GRID_SIZE s } (fun j _ hj => hno j hj)

/-! ## What a move with at most one matching fruit preserves -/

theorem advanceHead_onGrid (GRID_SIZE : Nat) (d : Direction) (p : Position)
    (h256 : GRID_SIZE ≤ 256) (hp : OnGrid GRID_SIZE p) :
    OnGrid GRID_SIZE (advanceHead GRID_SIZE d p) := by
  obtain ⟨hx, hy⟩ := hp
  have hu := toU8_pred GRID_SIZE (by omega) h256
  cases d <;> simp only [advanceHead] <;> split_ifs <;> constructor <;> simp only [hu] <;> omega

theorem advanceHead_adjacent (GRID_SIZE : Nat) (d : Direction) (p : Position)
    (h256 : GRID_SIZE ≤ 256) (hp : OnGrid GRID_SIZE p) :
    Adjacent GRID_SIZE (advanceHead GRID_SIZE d p) p := by
  obtain ⟨hx, hy⟩ := hp
  have hu := toU8_pred GRID_SIZE (by omega) h256
  have hG : GRID_SIZE - 1 + 1 = GRID_SIZE := by omega
  cases d
  · refine Or.inl ⟨by simp only [advanceHead]; split_ifs <;> rfl, Or.inl ?_⟩
    simp only [advanceHead]
    split_ifs with h
    · show (toU8 ((GRID_SIZE : Int) - 1) + 1) % GRID_SIZE = p.y % GRID_SIZE
      rw [hu, hG, h, Nat.mod_self, Nat.zero_mod]
    · show ((p.y - 1) % 256 + 1) % GRID_SIZE = p.y % GRID_SIZE
      have e : (p.y - 1) % 256 + 1 = p.y := by omega
      rw [e]
  · refine Or.inl ⟨by simp only [advanceHead]; split_ifs <;> rfl, Or.inr ?_⟩
    simp only [advanceHead]
    split_ifs with h
    · show (p.y + 1) % GRID_SIZE = 0 % GRID_SIZE
      have e : p.y + 1 = GRID_SIZE := by omega
      rw [e, Nat.mod_self, Nat.zero_mod]
    · show (p.y + 1) % GRID_SIZE = ((p.y + 1) % 256) % GRID_SIZE
      have e : (p.y + 1) % 256 = p.y + 1 := by omega
      rw [e]
  · refine Or.inr ⟨by simp only [advanceHead]; split_ifs <;> rfl, Or.inl ?_⟩
    simp only [advanceHead]
    split_ifs with h
    · show (toU8 ((GRID_SIZE : Int) - 1) + 1) % GRID_SIZE = p.x % GRID_SIZE
      rw [hu, hG, h, Nat.mod_self, Nat.zero_mod]
    · show ((p.x - 1) % 256 + 1) % GRID_SIZE = p.x % GRID_SIZE
      have e : (p.x - 1) % 256 + 1 = p.x := by omega
      rw [e]
  · refine Or.inr ⟨by simp only [advanceHead]; split_ifs <;> rfl, Or.inr ?_⟩
    simp only [advanceHead]
    split_ifs with h
    · show (p.x + 1) % GRID_SIZE = 0 % GRID_SIZE
      have e : p.x + 1 = GRID_SIZE := by omega
      rw [e, Nat.mod_self, Nat.zero_mod]
    · show (p.x + 1) % GRID_SIZE = ((p.x + 1) % 256) % GRID_SIZE
      have e : (p.x + 1) % 256 = p.x + 1 := by omega
      rw [e]

/-- With at most one fruit entry on the next head cell a call of `moveSnake`
either keeps the length, or eats one entry lying on that cell and adds one. -/
theorem moveSnake_length_cases (GRID_SIZE : Nat) (s : Globals) (hF : s.fruitSize < 256)
    (hone : ∀ j, j < s.fruitSize → ∀ k, k < s.fruitSize →
      s.fruit j = advanceHead GRID_SIZE s.gameState.currentDirection (s.snake 0) →
      s.fruit k = advanceHead GRID_SIZE s.gameState.currentDirection (s.snake 0) → j = k) :
    (moveSnake GRID_SIZE s).snakeLength = s.snakeLength ∨
    ((moveSnake GRID_SIZE s).snakeLength = (s.snakeLength + 1) % 256 ∧
      ∃ k, k < s.fruitSize ∧
        s.fruit k = advanceHead GRID_SIZE s.gameState.currentDirection (s.snake 0)) := by
  have hm0 := movedSnake_zero GRID_SIZE s
  by_cases hrun : s.gameState.isRunning = true
  swap
  · left
    unfold moveSnake
    simp [hrun]
  by_cases hlose : s.gameState.lose = false
  swap
  · left
    unfold moveSnake
    simp [hlose]
  cases hcol : isColliding { s with snake := movedSnake GRID_SIZE s } with
  | true =>
    left
    unfold moveSnake
    simp only [hrun, hlose, Bool.not_false, Bool.and_self, if_true, hcol]
    rfl
  | false =>
    by_cases hex : ∃ k, k < s.fruitSize ∧
        s.fruit k = advanceHead GRID_SIZE s.gameState.currentDirection (s.snake 0)
    · right
      obtain ⟨k, hk, hm⟩ := hex
      refine ⟨?_, k, hk, hm⟩
      rw [moveSnake_single_fruit GRID_SIZE s k hrun hlose hcol hk hF (by rw [hm0]; exact hm)
        (by
          rw [hm0]
          intro j hj hne he
          exact hne (hone j hj k hk he hm))]
      rfl
    · left
      rw [moveSnake_no_fruit GRID_SIZE s hrun hlose hcol
        (by
          rw [hm0]
          intro j hj he
          exact hex ⟨j, hj, he⟩)]

/-- The snake array after `moveSnake`, whatever the flags: the moved snake in a
running, non-lost state, the old array otherwise. -/
theorem moveSnake_snake_cases (GRID_SIZE : Nat) (s : Globals) :
    (moveSnake GRID_SIZE s = s) ∨ (moveSnake GRID_SIZE s).snake = movedSnake GRID_SIZE s := by
  by_cases hrun : s.gameState.isRunning = true
  swap
  · left
    unfold moveSnake
    simp [hrun]
  by_cases hlose : s.gameState.lose = false
  swap
  · left
    unfold moveSnake
    simp [hlose]
  exact Or.inr (moveSnake_snake GRID_SIZE s hrun hlose)

/-- Positions stay on the grid under `moveSnake` when at most one fruit entry
lies on the next head cell. -/
theorem moveSnake_snakeOnGrid (GRID_SIZE : Nat) (s : Globals)
    (h256 : GRID_SIZE ≤ 256) (hF : s.fruitSize < 256)
    (hs : SnakeOnGrid GRID_SIZE s) (hf : FruitOnGrid GRID_SIZE s)
    (hone : ∀ j, j < s.fruitSize → ∀ k, k < s.fruitSize →
      s.fruit j = advanceHead GRID_SIZE s.gameState.currentDirection (s.snake 0) →
      s.fruit k = advanceHead GRID_SIZE s.gameState.currentDirection (s.snake 0) → j = k) :
    SnakeOnGrid GRID_SIZE (moveSnake GRID_SIZE s) := by
  rcases moveSnake_snake_cases GRID_SIZE s with he | hsn
  · rw [he]
    exact hs
  intro i hi
  rw [hsn]
  have hlen := moveSnake_length_cases GRID_SIZE s hF hone
  cases i with
  | zero =>
    rw [movedSnake_zero]
    by_cases h0 : 0 < s.snakeLength
    · exact advanceHead_onGrid GRID_SIZE _ _ h256 (hs 0 h0)
    · rcases hlen with h | ⟨_, k, hk, hm⟩
      · omega
      · rw [← hm]
        exact hf k hk
  | succ j =>
    have hj : j < s.snakeLength := by
      rcases hlen with h | ⟨h, _⟩ <;> omega
    rw [movedSnake_succ GRID_SIZE s j hj]
    exact hs j hj

/-- Adjacency is preserved by `moveSnake` on the grid when at most one fruit entry
lies on the next head cell. -/
theorem moveSnake_snakeAdjacent (GRID_SIZE : Nat) (s : Globals)
    (h256 : GRID_SIZE ≤ 256) (hF : s.fruitSize < 256)
    (hs : SnakeOnGrid GRID_SIZE s) (ha : SnakeAdjacent GRID_SIZE s)
    (hone : ∀ j, j < s.fruitSize → ∀ k, k < s.fruitSize →
      s.fruit j = advanceHead GRID_SIZE s.gameState.currentDirection (s.snake 0) →
      s.fruit k = advanceHead GRID_SIZE s.gameState.currentDirection (s.snake 0) → j = k) :
    SnakeAdjacent GRID_SIZE (moveSnake GRID_SIZE s) := by
  rcases moveSnake_snake_cases GRID_SIZE s with he | hsn
  · rw [he]
    exact ha
  intro i hi
  rw [hsn]
  have hlen := moveSnake_length_cases GRID_SIZE s hF hone
  have hi2 : i < s.snakeLength := by
    rcases hlen with h | ⟨h, _⟩ <;> omega
  rw [movedSnake_succ GRID_SIZE s i hi2]
  cases i with
  | zero =>
    rw [movedSnake_zero]
    exact advanceHead_adjacent GRID_SIZE _ _ h256 (hs 0 hi2)
  | succ j =>
    rw [movedSnake_succ GRID_SIZE s j (by omega)]
    exact ha j (by omega)

theorem fruitLoop_fruitOnGrid (GRID_SIZE RAND_MAX : Nat) (draws : List Nat) (s : Globals)
    (hc : OnGrid GRID_SIZE { x := s.generatedX, y := s.generatedY })
    (hf : FruitOnGrid GRID_SIZE s) :
    FruitOnGrid GRID_SIZE (fruitLoop RAND_MAX draws s).1 := by
  induction draws generalizing s with
  | nil => exact hf
  | cons r rest ih =>
    rw [fruitLoop]
    split_ifs
    · apply ih
      · unfold fruitBody
        split_ifs <;> exact hc
      · unfold fruitBody
        split_ifs
        · intro j hj
          have hj2 : j < (s.fruitSize + 1) % 256 := hj
          show OnGrid GRID_SIZE (Function.update s.fruit s.fruitSize _ j)
          by_cases he : j = s.fruitSize
          · rw [he, Function.update_same]
            exact hc
          · rw [Function.update_noteq he]
            exact hf j (by omega)
        · exact hf
    · exact hf

/-- Fruit entries stay on the grid under `generateFruitTick`, for every list of
`rand()` values. -/
theorem generateFruitTick_fruitOnGrid (GRID_SIZE RAND_MAX : Nat) (draws : List Nat) (s : Globals)
    (h1 : 1 ≤ GRID_SIZE) (hf : FruitOnGrid GRID_SIZE s) :
    FruitOnGrid GRID_SIZE (generateFruitTick GRID_SIZE RAND_MAX draws s).1 := by
  match draws with
  | [] => exact hf
  | [_] => exact hf
  | rx :: ry :: rest =>
    apply fruitLoop_fruitOnGrid
    · constructor
      · show rx % GRID_SIZE % 256 < GRID_SIZE
        exact lt_of_le_of_lt (Nat.mod_le _ _) (Nat.mod_lt _ (by omega))
      · show ry % GRID_SIZE % 256 < GRID_SIZE
        exact lt_of_le_of_lt (Nat.mod_le _ _) (Nat.mod_lt _ (by omega))
    · exact hf

/-! ## Claims, continued -/

/-- C11. An append at capacity: at `exFruitFull` with `MAX_LEN = 8` the fruit array
is full (`fruitSize = 8`), the game runs and the candidate `(7,8)` is off the
snake; with `rand()` returning 23, 40, 100, 5000 and `RAND_MAX = 32767` the call
returns with `fruitSize = 9`, having written the candidate to `fruit[8]`. -/
theorem generateFruitTick_appends_at_capacity :
    exFruitFull.fruitSize = 8 ∧ exFruitFull.gameState.isRunning = true ∧
    exFruitFull.fruit 8 = { x := 0, y := 0 } ∧
    (generateFruitTick 16 32767 [23, 40, 100, 5000] exFruitFull).2 = true ∧
    (generateFruitTick 16 32767 [23, 40, 100, 5000] exFruitFull).1.fruitSize = 9 ∧
    ¬ (generateFruitTick 16 32767 [23, 40, 100, 5000] exFruitFull).1.fruitSize ≤ 8 ∧
    (generateFruitTick 16 32767 [23, 40, 100, 5000] exFruitFull).1.fruit 8 = { x := 7, y := 8 } := by
  decide

/-- C12. Fruit is only added on free cells: for every state and every list of
`rand()` values, the state reached by `generateFruitTick` is the state with the
drawn candidate followed by some number `n` of appends; the snake is the same
before, during and after; every one of the appends stores the candidate; if
there is at least one append, the candidate differs from every snake segment
`0 .. snakeLength-1`; and with `isRunning = false` there is no append, the fruit
array and `fruitSize` being unchanged. -/
theorem generateFruitTick_appends_on_free_cells (GRID_SIZE RAND_MAX : Nat) (draws : List Nat)
    (s : Globals) :
    ∃ n, (generateFruitTick GRID_SIZE RAND_MAX draws s).1
        = appendFruit^[n] (drawCandidate GRID_SIZE draws s) ∧
      (∀ k, (appendFruit^[k] (drawCandidate GRID_SIZE draws s)).snake = s.snake ∧
        (appendFruit^[k] (drawCandidate GRID_SIZE draws s)).snakeLength = s.snakeLength ∧
        (appendFruit^[k] (drawCandidate GRID_SIZE draws s)).generatedX
          = (drawCandidate GRID_SIZE draws s).generatedX ∧
        (appendFruit^[k] (drawCandidate GRID_SIZE draws s)).generatedY
          = (drawCandidate GRID_SIZE draws s).generatedY) ∧
      (0 < n → ∀ i, i < s.snakeLength →
        s.snake i ≠ { x := (drawCandidate GRID_SIZE draws s).generatedX,
                      y := (drawCandidate GRID_SIZE draws s).generatedY }) ∧
      (s.gameState.isRunning = false → n = 0 ∧
        (generateFruitTick GRID_SIZE RAND_MAX draws s).1.fruit = s.fruit ∧
        (generateFruitTick GRID_SIZE RAND_MAX draws s).1.fruitSize = s.fruitSize) := by
  obtain ⟨n, h1, h2⟩ := generateFruitTick_closed GRID_SIZE RAND_MAX draws s
  have hf := drawCandidate_frame GRID_SIZE draws s
  refine ⟨n, h1, ?_, ?_, ?_⟩
  · intro k
    have hk := appendFruit_iterate_frame k (drawCandidate GRID_SIZE draws s)
    exact ⟨hk.1.trans hf.1, hk.2.1.trans hf.2.1, hk.2.2.2.1, hk.2.2.2.2.1⟩
  · intro hn i hi he
    have hp := (h2 hn).2
    have ht : positionHasSnake s (drawCandidate GRID_SIZE draws s).generatedX
        (drawCandidate GRID_SIZE draws s).generatedY = true :=
      (positionHasSnake_eq_true_iff s _ _).mpr ⟨i, hi, he⟩
    rw [hp] at ht
    exact absurd ht (by decide)
  · intro hrun
    have hn : n = 0 := by
      by_contra hne
      have := (h2 (Nat.pos_of_ne_zero hne)).1
      rw [hrun] at this
      exact absurd this (by decide)
    subst hn
    rw [h1]
    exact ⟨rfl, hf.2.2.2.1, hf.2.2.2.2.1⟩

/-- C14. The flag `lose` is terminal until reset: from a state with `lose = true`,
`moveSnake` keeps `lose = true` and leaves the snake array, `snakeLength` and the
score unchanged; `generateFruitTick` (for every list of `rand()` values) and the
input step (for every button and joystick input) keep `lose = true`; `ResetGame`
sets `lose = false`. -/
theorem lose_terminal_until_reset (GRID_SIZE RAND_MAX : Nat) (s : Globals)
    (pausePressed resetPressed : Bool) (joy : JoystickDir) (draws : List Nat)
    (h : s.gameState.lose = true) :
    (moveSnake GRID_SIZE s).gameState.lose = true ∧
    (moveSnake GRID_SIZE s).snake = s.snake ∧
    (moveSnake GRID_SIZE s).snakeLength = s.snakeLength ∧
    (moveSnake GRID_SIZE s).score = s.score ∧
    (generateFruitTick GRID_SIZE RAND_MAX draws s).1.gameState.lose = true ∧
    (vInputTaskStep GRID_SIZE pausePressed resetPressed joy s).gameState.lose = true ∧
    (ResetGame GRID_SIZE s).gameState.lose = false := by
  have hm : moveSnake GRID_SIZE s = s := by
    unfold moveSnake
    simp [h]
  refine ⟨?_, ?_, ?_, ?_, ?_, ?_, rfl⟩
  · rw [hm, h]
  · rw [hm]
  · rw [hm]
  · rw [hm]
  · rw [generateFruitTick_gameState, h]
  · unfold vInputTaskStep
    rw [inputJoystick_lose, inputButtons_lose, h]

/-- C14 at `exLost`: a lost game stays lost under a move, a fruit tick and an
input step with both buttons pressed, and `ResetGame` clears the flag. -/
theorem lose_terminal_until_reset_witness :
    (moveSnake 16 exLost).gameState.lose = true ∧
    (moveSnake 16 exLost).snake = exLost.snake ∧
    (moveSnake 16 exLost).snakeLength = exLost.snakeLength ∧
    (moveSnake 16 exLost).score = exLost.score ∧
    (generateFruitTick 16 32767 [23, 40, 100, 5000] exLost).1.gameState.lose = true ∧
    (vInputTaskStep 16 true true .N exLost).gameState.lose = true ∧
    (ResetGame 16 exLost).gameState.lose = false :=
  lose_terminal_until_reset 16 32767 exLost true true .N [23, 40, 100, 5000] rfl

/-- C16. A shift write past the array: at `exFullPlain` with `MAX_LEN = 8` the game
runs, is not lost and `snakeLength = 8`; the shift loop of `moveSnake` writes
index 8, which is not below the capacity, and after `moveSnake` the slot
`snake[8]` holds the old tail `(1,0)` instead of its old content. -/
theorem moveSnake_shift_writes_past_array :
    exFullPlain.gameState.isRunning = true ∧ exFullPlain.gameState.lose = false ∧
    1 ≤ exFullPlain.snakeLength ∧ exFullPlain.snakeLength ≤ 8 ∧
    8 ∈ shiftWrites exFullPlain.snakeLength ∧
    ¬ (∀ i ∈ shiftWrites exFullPlain.snakeLength, i < 8) ∧
    exFullPlain.snake 8 = { x := 0, y := 0 } ∧
    (moveSnake 16 exFullPlain).snake 8 = { x := 1, y := 0 } ∧
    (moveSnake 16 exFullPlain).snakeLength = 8 := by
  decide

/-- C13. Adjacency broken by one move: `exFresh` is reached from program start on
a grid of size 16 (capacity 8); it runs, is not lost, has `snakeLength = 4` and
all consecutive segments adjacent (and on the grid).  Fruit entries 0 and 2 lie
on the next head cell, `moveSnake` eats both, the length becomes 6, and the new
last segment `snake[5] = (0,0)` is a slot the shift never wrote: it is not
adjacent to `snake[4] = (5,8)`. -/
theorem moveSnake_breaks_adjacency :
    exFresh.gameState.isRunning = true ∧ exFresh.gameState.lose = false ∧
    exFresh.snakeLength < 8 ∧ SnakeAdjacent 16 exFresh ∧ SnakeOnGrid 16 exFresh ∧
    (moveSnake 16 exFresh).gameState.lose = false ∧
    (moveSnake 16 exFresh).snakeLength = 6 ∧
    (moveSnake 16 exFresh).snake 4 = { x := 5, y := 8 } ∧
    (moveSnake 16 exFresh).snake 5 = { x := 0, y := 0 } ∧
    ¬ Adjacent 16 ((moveSnake 16 exFresh).snake 4) ((moveSnake 16 exFresh).snake 5) ∧
    ¬ SnakeAdjacent 16 (moveSnake 16 exFresh) := by
  decide

/-- C17, as stated, fails at `exLong` with `MAX_LEN = 256` on a grid of size 16:
the game runs, is not lost, `snakeLength = 255 < MAX_LEN`, the moved snake does
not self-collide and exactly one fruit entry lies on the new head; after
`moveSnake` the `uint8_t` length is 0, so the length has not grown by 1 and the
old tail is not the new last segment: there is no live segment at all. -/
theorem moveSnake_body_shape_length_wraps :
    exLong.gameState.isRunning = true ∧ exLong.gameState.lose = false ∧
    exLong.snakeLength < 256 ∧
    (∀ i, 1 ≤ i → i < exLong.snakeLength → movedSnake 16 exLong 0 ≠ movedSnake 16 exLong i) ∧
    (∀ j, j < exLong.fruitSize → ∀ k, k < exLong.fruitSize →
      exLong.fruit j = advanceHead 16 exLong.gameState.currentDirection (exLong.snake 0) →
      exLong.fruit k = advanceHead 16 exLong.gameState.currentDirection (exLong.snake 0) →
      j = k) ∧
    (∃ j, j < exLong.fruitSize ∧
      exLong.fruit j = advanceHead 16 exLong.gameState.currentDirection (exLong.snake 0)) ∧
    (moveSnake 16 exLong).snakeLength = 0 ∧
    ¬ (exLong.snakeLength < (moveSnake 16 exLong).snakeLength) := by
  have hl : (moveSnake 16 exLong).snakeLength = 0 := by
    rw [exLong_moveSnake]
    rfl
  refine ⟨rfl, rfl, by decide, ?_, by decide, ⟨0, by decide, by decide⟩, hl, ?_⟩
  · exact moved_no_self_collision 16 exLong (by decide) exLong_onGrid exLong_head_free
  · rw [hl]
    exact Nat.not_lt_zero _

/-- C17, amended. Body shape after a movement step: in a running, non-lost state
with `snakeLength < MAX_LEN`, if the moved snake does not self-collide (its head
coincides with none of its segments `1 .. snakeLength-1`) and at most one fruit
entry equals the new head, then after `moveSnake` every segment `i` with
`1 <= i < new snakeLength` equals the old segment `i-1`; without a fruit on the
new head the length is unchanged (the old tail cell is dropped); with a fruit
and an old length below 255 the length grows by 1 and the new last segment is
the old tail.  `fruitSize < 256` says that the counter is a `uint8_t`. -/
theorem moveSnake_body_shape (GRID_SIZE MAX_LEN : Nat) (s : Globals)
    (hF : s.fruitSize < 256)
    (hrun : s.gameState.isRunning = true) (hlose : s.gameState.lose = false)
    (_hlen : s.snakeLength < MAX_LEN)
    (hself : ∀ i, 1 ≤ i → i < s.snakeLength →
      movedSnake GRID_SIZE s 0 ≠ movedSnake GRID_SIZE s i)
    (hone : ∀ j, j < s.fruitSize → ∀ k, k < s.fruitSize →
      s.fruit j = advanceHead GRID_SIZE s.gameState.currentDirection (s.snake 0) →
      s.fruit k = advanceHead GRID_SIZE s.gameState.currentDirection (s.snake 0) → j = k) :
    (∀ i, 1 ≤ i → i < (moveSnake GRID_SIZE s).snakeLength →
      (moveSnake GRID_SIZE s).snake i = s.snake (i - 1)) ∧
    ((∀ j, j < s.fruitSize →
        s.fruit j ≠ advanceHead GRID_SIZE s.gameState.currentDirection (s.snake 0)) →
      (moveSnake GRID_SIZE s).snakeLength = s.snakeLength) ∧
    ((∃ j, j < s.fruitSize ∧
        s.fruit j = advanceHead GRID_SIZE s.gameState.currentDirection (s.snake 0)) →
      s.snakeLength < 255 →
      (moveSnake GRID_SIZE s).snakeLength = s.snakeLength + 1 ∧
      (1 ≤ s.snakeLength →
        (moveSnake GRID_SIZE s).snake s.snakeLength = s.snake (s.snakeLength - 1))) := by
  have hcol : isColliding { s with snake := movedSnake GRID_SIZE s } = false :=
    (isColliding_eq_false_iff _).mpr hself
  have hm0 := movedSnake_zero GRID_SIZE s
  have hsn := moveSnake_snake GRID_SIZE s hrun hlose
  have hshape : ∀ i, 1 ≤ i → i ≤ s.snakeLength →
      (moveSnake GRID_SIZE s).snake i = s.snake (i - 1) := by
    intro i h1 h2
    obtain ⟨j, rfl⟩ : ∃ j, i = j + 1 := ⟨i - 1, by omega⟩
    rw [hsn, movedSnake_succ GRID_SIZE s j (by omega)]
    rfl
  have hnone : (∀ j, j < s.fruitSize →
        s.fruit j ≠ advanceHead GRID_SIZE s.gameState.currentDirection (s.snake 0)) →
      (moveSnake GRID_SIZE s).snakeLength = s.snakeLength := by
    intro hno
    rw [moveSnake_no_fruit GRID_SIZE s hrun hlose hcol (by rw [hm0]; exact hno)]
  have hsome : (∃ j, j < s.fruitSize ∧
        s.fruit j = advanceHead GRID_SIZE s.gameState.currentDirection (s.snake 0)) →
      (moveSnake GRID_SIZE s).snakeLength = (s.snakeLength + 1) % 256 := by
    rintro ⟨k, hk, hm⟩
    rw [moveSnake_single_fruit GRID_SIZE s k hrun hlose hcol hk hF (by rw [hm0]; exact hm)
      (by
        rw [hm0]
        intro j hj hne he
        exact hne (hone j hj k hk he hm))]
    rfl
  refine ⟨?_, hnone, fun hex h255 => ⟨by rw [hsome hex]; omega, fun h1 => hshape _ h1 le_rfl⟩⟩
  intro i h1 h2
  apply hshape i h1
  by_cases hex : ∃ j, j < s.fruitSize ∧
      s.fruit j = advanceHead GRID_SIZE s.gameState.currentDirection (s.snake 0)
  · rw [hsome hex] at h2
    omega
  · rw [hnone (fun j hj he => hex ⟨j, hj, he⟩)] at h2
    omega

/-- C17 amended, at `exEat` (grid 16, capacity 8): the fruit entry 1 is eaten, the length
becomes 5 and the new last segment is the old tail `(2,0)`. -/
theorem moveSnake_body_shape_witness :
    (moveSnake 16 exEat).snake 1 = exEat.snake 0 ∧
    (moveSnake 16 exEat).snakeLength = 5 ∧
    (moveSnake 16 exEat).snake 4 = { x := 2, y := 0 } :=
  ⟨(moveSnake_body_shape 16 8 exEat (by decide) rfl rfl (by decide) (by decide)
      (by decide)).1 1 (by decide) (by decide),
   ((moveSnake_body_shape 16 8 exEat (by decide) rfl rfl (by decide) (by decide)
      (by decide)).2.2 ⟨1, by decide, by decide⟩ (by decide)).1,
   ((moveSnake_body_shape 16 8 exEat (by decide) rfl rfl (by decide) (by decide)
      (by decide)).2.2 ⟨1, by decide, by decide⟩ (by decide)).2 (by decide)⟩

/-- C18. A live segment off the grid after one move: `exStale` is reached from
program start on a grid of size 4 (capacity 8); its live segments and fruit
entries lie on the grid, `snakeLength = 4` and `fruitSize = 3`.  Fruit entries 0
and 2 lie on the next head cell, `moveSnake` eats both, the length becomes 6 and
the new last segment `snake[5] = (255,2)`, a slot the shift never wrote, lies
off the grid. -/
theorem moveSnake_exposes_off_grid_slot :
    2 ≤ 4 ∧ 4 ≤ 256 ∧
    SnakeOnGrid 4 exStale ∧ FruitOnGrid 4 exStale ∧
    exStale.snakeLength = 4 ∧ exStale.snakeLength < 8 ∧ exStale.fruitSize < 8 ∧
    exStale.gameState.isRunning = true ∧ exStale.gameState.lose = false ∧
    (moveSnake 4 exStale).snakeLength = 6 ∧
    (moveSnake 4 exStale).snake 5 = { x := 255, y := 2 } ∧
    ¬ OnGrid 4 ((moveSnake 4 exStale).snake 5) ∧
    ¬ SnakeOnGrid 4 (moveSnake 4 exStale) := by
  decide

/-- C19. The look-ahead cell of the input step is the cell `moveSnake` moves to:
for `2 <= GRID_SIZE <= 127`, every state whose head lies on the grid (whatever
its current direction and flags) and every direction `d`, let `H` be the head
that `moveSnake` produces from the same snake when the game runs with
`currentDirection = d`.  Then the cell computed with the `int8_t` variable is
`H`, and for every button input and every joystick reading that stands for `d`
the input step decides by `positionHasSnake` at `H`: it keeps the current
direction when `H` is occupied and sets `d` when `H` is free. -/
theorem lookAhead_is_moveSnake_head (GRID_SIZE : Nat) (s : Globals) (d : Direction)
    (_h2 : 2 ≤ GRID_SIZE) (h127 : GRID_SIZE ≤ 127)
    (hx : (s.snake 0).x < GRID_SIZE) (hy : (s.snake 0).y < GRID_SIZE) :
    lookAhead GRID_SIZE d (s.snake 0) = (moveSnake GRID_SIZE (heading d s)).snake 0 ∧
    (∀ (pausePressed resetPressed : Bool) (joy : JoystickDir), joyTarget joy = some d →
      (vInputTaskStep GRID_SIZE pausePressed resetPressed joy s).gameState.currentDirection =
        if positionHasSnake s ((moveSnake GRID_SIZE (heading d s)).snake 0).x
            ((moveSnake GRID_SIZE (heading d s)).snake 0).y = true
        then s.gameState.currentDirection else d) := by
  have hH : (moveSnake GRID_SIZE (heading d s)).snake 0 = lookAhead GRID_SIZE d (s.snake 0) := by
    rw [moveSnake_snake GRID_SIZE (heading d s) rfl rfl, movedSnake_zero]
    exact (lookAhead_eq_advanceHead GRID_SIZE d _ h127 ⟨hx, hy⟩).symm
  refine ⟨hH.symm, ?_⟩
  intro pausePressed resetPressed joy hjoy
  rw [vInputTaskStep_currentDirection, hjoy, hH]

/-- C19 at `exRow` on a grid of size 16: the snake heads RIGHT from `(5,3)`, the
reading N stands for UP, the cell `moveSnake` would move to when heading UP is
`(5,2)`, it is free, and the input step sets UP. -/
theorem lookAhead_is_moveSnake_head_witness :
    lookAhead 16 .UP (exRow.snake 0) = { x := 5, y := 2 } ∧
    (moveSnake 16 (heading .UP exRow)).snake 0 = { x := 5, y := 2 } ∧
    (vInputTaskStep 16 false false .N exRow).gameState.currentDirection = .UP :=
  ⟨by decide, by decide,
   ((lookAhead_is_moveSnake_head 16 exRow .UP (by decide) (by decide) (by decide)
      (by decide)).2 false false .N rfl).trans (by decide)⟩

/-! ## Interleavings of the critical sections -/

/-- The critical section `removeFruit` is the part of `eatFruit` that touches the
fruit set. -/
theorem eatFruit_eq_removeFruit (s : Globals) (k : Nat) :
    eatFruit s k =
      removeFruit
        (Buzzer_Post { s with snakeLength := (s.snakeLength + 1) % 256,
                              score := (s.score + 1) % 256 } 1500 100)
        (k % 256) :=
  rfl

theorem fruitSeq_removeFruit (s : Globals) (k : Nat) (hk : k < s.fruitSize)
    (hfs : s.fruitSize < 256) :
    fruitSeq (removeFruit s k) = (fruitSeq s).eraseIdx k := by
  have h := fruitSeq_eatFruit s k hk hfs
  have e : k % 256 = k := Nat.mod_eq_of_lt (by omega)
  have e2 : fruitSeq (eatFruit s k) = fruitSeq (removeFruit s (k % 256)) := rfl
  rw [e2, e] at h
  exact h

theorem fruitSeq_appendFruit (s : Globals) (hfs : s.fruitSize < 255) :
    fruitSeq (appendFruit s) = fruitSeq s ++ [{ x := s.generatedX, y := s.generatedY }] := by
  have hsz : (appendFruit s).fruitSize = s.fruitSize + 1 := by
    show (s.fruitSize + 1) % 256 = _
    omega
  unfold fruitSeq
  rw [hsz, List.range_succ, List.map_append, List.map_singleton]
  congr 1
  · apply List.map_congr_left
    intro j hj
    have hj2 : j < s.fruitSize := List.mem_range.mp hj
    show Function.update s.fruit s.fruitSize _ j = s.fruit j
    rw [Function.update_noteq (by omega)]
  · show [Function.update s.fruit s.fruitSize _ s.fruitSize] = _
    rw [Function.update_same]

/-- C15, as stated, fails at `exManyFruit` with `MAX_LEN = 256`: the fruit set
holds 255 entries, one append finds room and writes `fruit[255]` inside the
array, and the `uint8_t` size is 0 afterwards, not 255 + 1 - 0: the live sequence
is empty. -/
theorem fruit_append_wraps_size :
    exManyFruit.fruitSize = 255 ∧ exManyFruit.fruitSize < 256 ∧
    countAppends [FruitOp.append 9 9] = 1 ∧ countRemoves [FruitOp.append 9 9] = 0 ∧
    (runOps [FruitOp.append 9 9] exManyFruit).fruit 255 = { x := 9, y := 9 } ∧
    (runOps [FruitOp.append 9 9] exManyFruit).fruitSize = 0 ∧
    (runOps [FruitOp.append 9 9] exManyFruit).fruitSize ≠ exManyFruit.fruitSize + 1 - 0 ∧
    fruitSeq (runOps [FruitOp.append 9 9] exManyFruit) = [] := by
  decide

/-- C15, amended. Atomicity of fruit-set updates: for every interleaving of appends
by `generateFruitTick` and removals by `eatFruit` under `fruitMutex` (every list
of the two critical sections) in which every operation succeeds (an append
finds `fruitSize` below `MAX_LEN` and below 255, a removal hits a live index),
the final size plus the number of removals equals the initial size plus the
number of appends, and the final fruit sequence is the initial one with every
appended cell added once at the end and every removed index erased, no entry
duplicated or altered. -/
theorem fruit_interleaving_atomic (MAX_LEN : Nat) (ops : List FruitOp) (s : Globals)
    (hfs : s.fruitSize < 256) (hok : OpsSucceed MAX_LEN ops s.fruitSize) :
    (runOps ops s).fruitSize + countRemoves ops = s.fruitSize + countAppends ops ∧
    fruitSeq (runOps ops s) = expectedFruit ops (fruitSeq s) := by
  induction ops generalizing s with
  | nil => exact ⟨rfl, rfl⟩
  | cons op rest ih =>
    cases op with
    | append x y =>
      obtain ⟨⟨_, h255⟩, hrest⟩ := hok
      have hsz : (applyOp s (.append x y)).fruitSize = s.fruitSize + 1 := by
        show (s.fruitSize + 1) % 256 = _
        omega
      have hseq : fruitSeq (applyOp s (.append x y)) = fruitSeq s ++ [{ x := x, y := y }] :=
        fruitSeq_appendFruit { s with generatedX := x, generatedY := y } h255
      obtain ⟨h1, h2⟩ := ih (applyOp s (.append x y)) (by rw [hsz]; omega) (by rw [hsz]; exact hrest)
      refine ⟨?_, ?_⟩
      · show (runOps rest (applyOp s (.append x y))).fruitSize + countRemoves rest
          = s.fruitSize + (countAppends rest + 1)
        rw [h1, hsz]
        omega
      · show fruitSeq (runOps rest (applyOp s (.append x y)))
          = expectedFruit rest (fruitSeq s ++ [{ x := x, y := y }])
        rw [h2, hseq]
    | remove k =>
      obtain ⟨hk, hrest⟩ := hok
      have hsz : (applyOp s (.remove k)).fruitSize = s.fruitSize - 1 := by
        show (s.fruitSize + 255) % 256 = _
        omega
      have hseq : fruitSeq (applyOp s (.remove k)) = (fruitSeq s).eraseIdx k :=
        fruitSeq_removeFruit s k hk hfs
      obtain ⟨h1, h2⟩ := ih (applyOp s (.remove k)) (by rw [hsz]; omega) (by rw [hsz]; exact hrest)
      refine ⟨?_, ?_⟩
      · show (runOps rest (applyOp s (.remove k))).fruitSize + (countRemoves rest + 1)
          = s.fruitSize + countAppends rest
        have e : (runOps rest (applyOp s (.remove k))).fruitSize + (countRemoves rest + 1)
            = (runOps rest (applyOp s (.remove k))).fruitSize + countRemoves rest + 1 := by omega
        rw [e, h1, hsz]
        omega
      · show fruitSeq (runOps rest (applyOp s (.remove k)))
          = expectedFruit rest ((fruitSeq s).eraseIdx k)
        rw [h2, hseq]

/-- C15 amended, at `exEat` (three fruit entries, capacity 8): two appends
interleaved with two removals leave three entries. -/
theorem fruit_interleaving_atomic_witness :
    (runOps [.append 9 9, .remove 0, .append 2 2, .remove 1] exEat).fruitSize = 3 ∧
    fruitSeq (runOps [.append 9 9, .remove 0, .append 2 2, .remove 1] exEat)
      = [⟨5, 1⟩, ⟨9, 9⟩, ⟨2, 2⟩] :=
  ⟨by
      have h := (fruit_interleaving_atomic 8
        [.append 9 9, .remove 0, .append 2 2, .remove 1] exEat (by decide) (by decide)).1
      exact Nat.add_right_cancel h,
   (fruit_interleaving_atomic 8
      [.append 9 9, .remove 0, .append 2 2, .remove 1] exEat (by decide) (by decide)).2⟩

end SnakeGame
